import Mathlib

/-!
# Verification of the JIRA issue export pipeline

A shallow embedding of the export core of the `jira-feature-extract`
repository: the field projectors (`processIssueForJson`,
`processIssueForCsv`, `convertIssueToXml` with `normalizeCustomField`),
the per-issue progress loop shared verbatim by the three exporters, and
the orchestrator `ExportService.export` with its try/catch error policy.

JavaScript runtime values that flow through untyped positions (custom
fields, projected records, XML structures) are modelled by `JSValue`.
Records built as JS object literals are modelled as ordered association
lists `List (String × JSValue)`, which preserves key insertion order and
lets absence of a key be stated.  Machine numbers in play (counts,
seconds, percentages, ETA milliseconds) are modelled as rationals with
JavaScript `Math.round` made explicit.
-/

/-- A JavaScript runtime value.  `undefined` is JavaScript `undefined`
(distinct from `null`): a missing object property reads as `undefined`. -/
inductive JSValue where
  | null : JSValue
  | undefined : JSValue
  | bool : Bool → JSValue
  | num : Rat → JSValue
  | str : String → JSValue
  | arr : List JSValue → JSValue
  | obj : List (String × JSValue) → JSValue

/-- JavaScript truthiness of a value (`NaN` does not arise here). -/
def JSValue.truthy : JSValue → Bool
  | .null => false
  | .undefined => false
  | .bool b => b
  | .num q => !(q == 0)
  | .str s => !(s == "")
  | .arr _ => true
  | .obj _ => true

/-- The `x === undefined` test. -/
def JSValue.isUndefined : JSValue → Bool
  | .undefined => true
  | _ => false

/-- The `x === null` test. -/
def JSValue.isNull : JSValue → Bool
  | .null => true
  | _ => false

/-- JavaScript property read `v[k]`: `undefined` when the key is missing
or the value is not an object. -/
def JSValue.get : JSValue → String → JSValue
  | .obj fields, k =>
    match fields.lookup k with
    | some v => v
    | none => .undefined
  | _, _ => .undefined

/-- Escaping of `"` and `\` inside a JSON string literal. -/
def jsonEscape (s : String) : String :=
  String.mk (s.data.foldr (fun c acc =>
    if c = '"' then '\\' :: '"' :: acc
    else if c = '\\' then '\\' :: '\\' :: acc
    else c :: acc) [])

/-- `String.prototype.toUpperCase` (ASCII, which covers the format
names that reach it). -/
def jsToUpperCase (s : String) : String :=
  String.mk (s.data.map Char.toUpper)

/-- `String.prototype.startsWith`. -/
def jsStartsWith (s pre : String) : Bool :=
  pre.data.isPrefixOf s.data

/-- Rendering of the numbers that reach serialized output.  Every number
produced by the export pipeline is either an integer or a value rounded
to two decimal places, and those are rendered the way JavaScript does. -/
def ratRender (q : Rat) : String :=
  if q.den = 1 then toString q.num
  else if (q * 100).den = 1 ∧ 0 ≤ q then
    let c : Int := (q * 100).num
    let ip := c / 100
    let fr := c % 100
    if fr % 10 = 0 then toString ip ++ "." ++ toString (fr / 10)
    else toString ip ++ "." ++ toString fr
  else toString q.num ++ "/" ++ toString q.den

mutual

/-- `JSON.stringify` (compact form).  Object properties holding
`undefined` are skipped; `undefined` array elements serialize as
`null`. -/
def jsonStringify : JSValue → String
  | .null => "null"
  | .undefined => "null"
  | .bool b => if b then "true" else "false"
  | .num q => ratRender q
  | .str s => "\"" ++ jsonEscape s ++ "\""
  | .arr xs => "[" ++ String.intercalate "," (jsonStringifyList xs) ++ "]"
  | .obj fields => "\x7b" ++ String.intercalate "," (jsonStringifyFields fields) ++ "\x7d"

/-- Serialization of the elements of a JSON array. -/
def jsonStringifyList : List JSValue → List String
  | [] => []
  | x :: xs => jsonStringify x :: jsonStringifyList xs

/-- Serialization of the properties of a JSON object, skipping
`undefined`-valued properties as `JSON.stringify` does. -/
def jsonStringifyFields : List (String × JSValue) → List String
  | [] => []
  | (k, v) :: fs =>
    if v.isUndefined then jsonStringifyFields fs
    else ("\"" ++ jsonEscape k ++ "\":" ++ jsonStringify v) :: jsonStringifyFields fs

end

/-- `XmlExporter.normalizeCustomField`: array values are mapped
element-wise, reducing each object element by the truthiness chain
`item.value || item.name || item.displayName || JSON.stringify(item)`;
a top-level object is reduced by definedness
(`value.value !== undefined`, then `name`, then `displayName`, else
`JSON.stringify(value)`); any other value passes through unchanged. -/
def normalizeCustomField (value : JSValue) : JSValue :=
  match value with
  | .arr items =>
    .arr (items.map fun item =>
      match item with
      | .obj _ | .arr _ =>
        let v := item.get "value"
        let n := item.get "name"
        let d := item.get "displayName"
        if v.truthy then v
        else if n.truthy then n
        else if d.truthy then d
        else .str (jsonStringify item)
      | _ => item)
  | .obj _ =>
    if !(value.get "value").isUndefined then value.get "value"
    else if !(value.get "name").isUndefined then value.get "name"
    else if !(value.get "displayName").isUndefined then value.get "displayName"
    else .str (jsonStringify value)
  | _ => value

/-! ## Data model

Lean structures mirroring the TypeScript interfaces in
`types/jira-api.ts` and `types/app.ts`.  Fields the export pipeline
never reads (`self` links on sub-objects, avatar URLs, pagination
bookkeeping, …) are omitted.  Properties the interfaces mark optional
(`?`) are `Option`s; a custom field (the `[customField: string]: any`
index signature) is an arbitrary `JSValue` keyed in `customFields`. -/

structure JiraUser where
  name : Option String
  key : Option String
  displayName : String
  emailAddress : Option String

structure JiraIssueType where
  id : String
  name : String
  subtask : Bool
  iconUrl : String

structure JiraStatusCategory where
  name : String

structure JiraStatus where
  id : String
  name : String
  description : String
  statusCategory : JiraStatusCategory

structure JiraPriority where
  id : String
  name : String
  iconUrl : String

structure JiraResolution where
  id : String
  name : String

structure JiraProject where
  id : String
  key : String
  name : String

structure JiraComponent where
  id : String
  name : String
  description : Option String

structure JiraVersion where
  id : String
  name : String
  releaseDate : Option String

structure JiraComment where
  id : String
  author : JiraUser
  body : String
  created : String
  updated : String

structure JiraAttachment where
  id : String
  filename : String
  size : Rat
  mimeType : String
  author : JiraUser
  created : String
  content : String

structure JiraWorklog where
  id : String
  author : JiraUser
  timeSpent : String
  timeSpentSeconds : Rat
  started : String
  comment : Option String
  created : String

/-- The `fields.comment` sub-object (`{comments, total, …}`). -/
structure CommentBlock where
  comments : List JiraComment
  total : Rat

/-- The `fields.worklog` sub-object (`{worklogs, total, …}`). -/
structure WorklogBlock where
  worklogs : List JiraWorklog
  total : Rat

/-- The `fields` carried by a parent / subtask / linked-issue
reference. -/
structure SubFields where
  summary : String
  status : JiraStatus
  issuetype : JiraIssueType

/-- A parent, subtask or linked-issue reference (`{id, key, fields}`). -/
structure IssueRef where
  id : String
  key : String
  fields : SubFields

structure LinkType where
  id : String
  name : String
  inward : String
  outward : String

structure IssueLink where
  id : String
  type : LinkType
  outwardIssue : Option IssueRef
  inwardIssue : Option IssueRef

structure JiraIssueFields where
  summary : String
  description : Option String
  issuetype : JiraIssueType
  project : JiraProject
  status : JiraStatus
  priority : Option JiraPriority
  resolution : Option JiraResolution
  assignee : Option JiraUser
  reporter : Option JiraUser
  created : String
  updated : String
  resolutiondate : Option String
  duedate : Option String
  components : Option (List JiraComponent)
  fixVersions : Option (List JiraVersion)
  versions : Option (List JiraVersion)
  labels : Option (List String)
  environment : Option String
  comment : Option CommentBlock
  attachment : Option (List JiraAttachment)
  worklog : Option WorklogBlock
  parent : Option IssueRef
  subtasks : Option (List IssueRef)
  issuelinks : Option (List IssueLink)
  customFields : List (String × JSValue)

structure JiraIssue where
  id : String
  self : String
  key : String
  fields : JiraIssueFields

/-- `ExportConfig` from `types/app.ts`.  `format` is kept as a raw
string so that unsupported values can be passed, as the dispatch code
must handle them. -/
structure ExportConfig where
  format : String
  includeFields : List String
  includeComments : Bool
  includeAttachments : Bool
  includeWorklog : Bool
  includeSubtasks : Bool
  includeLinks : Bool

/-- `x` for an optional string property: reading an absent property
gives `undefined`. -/
def ofOptStr : Option String → JSValue
  | some s => .str s
  | none => .undefined

/-- `a || b` on two optional string properties, with JavaScript string
truthiness (`""` is falsy). -/
def jsOrStr : Option String → Option String → JSValue
  | some s, b => if s = "" then (match b with
      | some t => .str t
      | none => .undefined)
    else .str s
  | none, some t => .str t
  | none, none => .undefined

/-! ## The issue field projectors

`ExportService.processIssueForJson`, `ExportService.processIssueForCsv`
and `XmlExporter.convertIssueToXml`.  Each record is an ordered
association list matching the object-literal construction in the
source: the fixed base first, then each conditionally added property
group in source order. -/

/-- The fixed part of the object literal built by
`ExportService.processIssueForJson`. -/
def jsonBase (issue : JiraIssue) : List (String × JSValue) :=
  let f := issue.fields
  [("id", .str issue.id),
   ("key", .str issue.key),
   ("self", .str issue.self),
   ("summary", .str f.summary),
   ("description", ofOptStr f.description),
   ("issueType", .obj [("id", .str f.issuetype.id), ("name", .str f.issuetype.name),
      ("subtask", .bool f.issuetype.subtask)]),
   ("project", .obj [("id", .str f.project.id), ("key", .str f.project.key),
      ("name", .str f.project.name)]),
   ("status", .obj [("id", .str f.status.id), ("name", .str f.status.name),
      ("category", .str f.status.statusCategory.name)]),
   ("priority", match f.priority with
     | some p => .obj [("id", .str p.id), ("name", .str p.name)]
     | none => .null),
   ("assignee", match f.assignee with
     | some u => .obj [("displayName", .str u.displayName),
        ("emailAddress", ofOptStr u.emailAddress)]
     | none => .null),
   ("reporter", match f.reporter with
     | some u => .obj [("displayName", .str u.displayName),
        ("emailAddress", ofOptStr u.emailAddress)]
     | none => .null),
   ("created", .str f.created),
   ("updated", .str f.updated),
   ("resolutionDate", ofOptStr f.resolutiondate),
   ("dueDate", ofOptStr f.duedate),
   ("labels", .arr ((f.labels.getD []).map .str)),
   ("components", .arr ((f.components.getD []).map fun c =>
      .obj [("id", .str c.id), ("name", .str c.name),
        ("description", ofOptStr c.description)])),
   ("fixVersions", .arr ((f.fixVersions.getD []).map fun v =>
      .obj [("id", .str v.id), ("name", .str v.name),
        ("releaseDate", ofOptStr v.releaseDate)])),
   ("versions", .arr ((f.versions.getD []).map fun v =>
      .obj [("id", .str v.id), ("name", .str v.name),
        ("releaseDate", ofOptStr v.releaseDate)]))]

/-- `if (config.includeComments && issue.fields.comment?.comments)`. -/
def jsonComments (f : JiraIssueFields) (config : ExportConfig) : List (String × JSValue) :=
  match config.includeComments, f.comment with
  | true, some cb =>
    [("comments", .arr (cb.comments.map fun c =>
      .obj [("id", .str c.id), ("author", .str c.author.displayName),
        ("body", .str c.body), ("created", .str c.created), ("updated", .str c.updated)]))]
  | _, _ => []

/-- `if (config.includeAttachments && issue.fields.attachment)`. -/
def jsonAttachments (f : JiraIssueFields) (config : ExportConfig) : List (String × JSValue) :=
  match config.includeAttachments, f.attachment with
  | true, some atts =>
    [("attachments", .arr (atts.map fun a =>
      .obj [("id", .str a.id), ("filename", .str a.filename), ("size", .num a.size),
        ("mimeType", .str a.mimeType), ("author", .str a.author.displayName),
        ("created", .str a.created)]))]
  | _, _ => []

/-- `if (config.includeWorklog && issue.fields.worklog?.worklogs)`. -/
def jsonWorklogs (f : JiraIssueFields) (config : ExportConfig) : List (String × JSValue) :=
  match config.includeWorklog, f.worklog with
  | true, some wb =>
    [("worklogs", .arr (wb.worklogs.map fun w =>
      .obj [("id", .str w.id), ("author", .str w.author.displayName),
        ("timeSpent", .str w.timeSpent), ("timeSpentSeconds", .num w.timeSpentSeconds),
        ("started", .str w.started), ("comment", ofOptStr w.comment)]))]
  | _, _ => []

/-- `if (config.includeSubtasks && issue.fields.subtasks)`. -/
def jsonSubtasks (f : JiraIssueFields) (config : ExportConfig) : List (String × JSValue) :=
  match config.includeSubtasks, f.subtasks with
  | true, some sts =>
    [("subtasks", .arr (sts.map fun st =>
      .obj [("id", .str st.id), ("key", .str st.key), ("summary", .str st.fields.summary),
        ("status", .str st.fields.status.name), ("issueType", .str st.fields.issuetype.name)]))]
  | _, _ => []

/-- `if (config.includeLinks && issue.fields.issuelinks)`.  The linked
issue prefers `outwardIssue` over `inwardIssue` and is `null` when
neither is present. -/
def jsonLinks (f : JiraIssueFields) (config : ExportConfig) : List (String × JSValue) :=
  match config.includeLinks, f.issuelinks with
  | true, some links =>
    [("issueLinks", .arr (links.map fun link =>
      .obj [("id", .str link.id),
        ("type", .obj [("name", .str link.type.name), ("inward", .str link.type.inward),
          ("outward", .str link.type.outward)]),
        ("linkedIssue", match link.outwardIssue.orElse (fun _ => link.inwardIssue) with
          | some li => .obj [("key", .str li.key), ("summary", .str li.fields.summary)]
          | none => .null),
        ("direction", .str (if link.outwardIssue.isSome then "outward" else "inward"))]))]
  | _, _ => []

/-- `if (issue.fields.parent)` — not gated by any flag. -/
def jsonParent (f : JiraIssueFields) : List (String × JSValue) :=
  match f.parent with
  | some p => [("parent", .obj [("id", .str p.id), ("key", .str p.key),
      ("summary", .str p.fields.summary)])]
  | none => []

/-- `ExportService.processIssueForJson`. -/
def processIssueForJson (issue : JiraIssue) (config : ExportConfig) :
    List (String × JSValue) :=
  jsonBase issue
    ++ jsonComments issue.fields config
    ++ jsonAttachments issue.fields config
    ++ jsonWorklogs issue.fields config
    ++ jsonSubtasks issue.fields config
    ++ jsonLinks issue.fields config
    ++ jsonParent issue.fields

/-- JavaScript `Math.round`: round half towards positive infinity. -/
def jsRound (q : Rat) : Int := ⌊q + 1 / 2⌋

/-- The fixed column set of `ExportService.processIssueForCsv`
(`'x' || ''` on an optional string is projected as the empty string
when the value is absent or empty). -/
def csvBase (issue : JiraIssue) : List (String × JSValue) :=
  let f := issue.fields
  [("Issue ID", .str issue.id),
   ("Issue Key", .str issue.key),
   ("Summary", .str f.summary),
   ("Description", .str (f.description.getD "")),
   ("Issue Type", .str f.issuetype.name),
   ("Project Key", .str f.project.key),
   ("Project Name", .str f.project.name),
   ("Status", .str f.status.name),
   ("Priority", .str ((f.priority.map (·.name)).getD "")),
   ("Assignee", .str ((f.assignee.map (·.displayName)).getD "")),
   ("Reporter", .str ((f.reporter.map (·.displayName)).getD "")),
   ("Created", .str f.created),
   ("Updated", .str f.updated),
   ("Resolution Date", .str (f.resolutiondate.getD "")),
   ("Due Date", .str (f.duedate.getD "")),
   ("Labels", .str (String.intercalate ", " (f.labels.getD []))),
   ("Components", .str (String.intercalate ", " ((f.components.getD []).map (·.name)))),
   ("Fix Versions", .str (String.intercalate ", " ((f.fixVersions.getD []).map (·.name)))),
   ("Versions", .str (String.intercalate ", " ((f.versions.getD []).map (·.name))))]

/-- Parent columns: added whenever the issue has a parent, independent
of any flag. -/
def csvParent (f : JiraIssueFields) : List (String × JSValue) :=
  match f.parent with
  | some p => [("Parent Key", .str p.key), ("Parent Summary", .str p.fields.summary)]
  | none => []

/-- Subtask columns, gated by `config.includeSubtasks`. -/
def csvSubtasks (f : JiraIssueFields) (config : ExportConfig) : List (String × JSValue) :=
  match config.includeSubtasks, f.subtasks with
  | true, some sts =>
    [("Subtasks Count", .num sts.length),
     ("Subtasks", .str (String.intercalate ", " (sts.map (·.key))))]
  | _, _ => []

/-- Comment-count column, gated by `config.includeComments`. -/
def csvComments (f : JiraIssueFields) (config : ExportConfig) : List (String × JSValue) :=
  match config.includeComments, f.comment with
  | true, some cb => [("Comments Count", .num cb.total)]
  | _, _ => []

/-- Attachment-count column, gated by `config.includeAttachments`. -/
def csvAttachments (f : JiraIssueFields) (config : ExportConfig) : List (String × JSValue) :=
  match config.includeAttachments, f.attachment with
  | true, some atts => [("Attachments Count", .num atts.length)]
  | _, _ => []

/-- Worklog aggregate columns, gated by `config.includeWorklog`:
count, summed seconds, and hours rounded to two decimals. -/
def csvWorklog (f : JiraIssueFields) (config : ExportConfig) : List (String × JSValue) :=
  match config.includeWorklog, f.worklog with
  | true, some wb =>
    let totalTimeSpent := (wb.worklogs.map (·.timeSpentSeconds)).sum
    [("Worklog Count", .num wb.total),
     ("Total Time Spent (seconds)", .num totalTimeSpent),
     ("Total Time Spent (hours)", .num ((jsRound (totalTimeSpent / 3600 * 100) : Rat) / 100))]
  | _, _ => []

/-- `ExportService.processIssueForCsv`. -/
def processIssueForCsv (issue : JiraIssue) (config : ExportConfig) :
    List (String × JSValue) :=
  csvBase issue
    ++ csvParent issue.fields
    ++ csvSubtasks issue.fields config
    ++ csvComments issue.fields config
    ++ csvAttachments issue.fields config
    ++ csvWorklog issue.fields config

/-! ## The XML issue converter -/

/-- The fixed part of the XML item built by
`XmlExporter.convertIssueToXml`.  Nested element/attribute groups use
the `fast-xml-parser` conventions (`@_` attribute prefix, `#text` text
node); properties set to `undefined` in the source literal are kept as
`undefined` here — the XML builder suppresses them. -/
def xmlBase (issue : JiraIssue) : List (String × JSValue) :=
  let f := issue.fields
  [("@_id", .str issue.id),
   ("title", .str f.summary),
   ("link", .str issue.self),
   ("project-key", .str f.project.key),
   ("description", .str (f.description.getD "")),
   ("environment", .str (f.environment.getD "")),
   ("key", .str issue.key),
   ("summary", .str f.summary),
   ("type", .obj [("@_id", .str f.issuetype.id), ("@_iconUrl", .str f.issuetype.iconUrl),
      ("#text", .str f.issuetype.name)]),
   ("priority", match f.priority with
     | some p => .obj [("@_id", .str p.id), ("@_iconUrl", .str p.iconUrl),
        ("#text", .str p.name)]
     | none => .undefined),
   ("status", .obj [("@_id", .str f.status.id), ("@_description", .str f.status.description),
      ("#text", .str f.status.name)]),
   ("resolution", match f.resolution with
     | some r => .obj [("@_id", .str r.id), ("#text", .str r.name)]
     | none => .undefined),
   ("assignee", match f.assignee with
     | some u => .obj [("@_username", jsOrStr u.name u.key), ("#text", .str u.displayName)]
     | none => .undefined),
   ("reporter", match f.reporter with
     | some u => .obj [("@_username", jsOrStr u.name u.key), ("#text", .str u.displayName)]
     | none => .undefined),
   ("created", .str f.created),
   ("updated", .str f.updated),
   ("resolved", ofOptStr f.resolutiondate),
   ("version", .arr ((f.versions.getD []).map fun v =>
      .obj [("@_id", .str v.id), ("#text", .str v.name)])),
   ("fix-version", .arr ((f.fixVersions.getD []).map fun v =>
      .obj [("@_id", .str v.id), ("#text", .str v.name)])),
   ("component", .arr ((f.components.getD []).map fun c =>
      .obj [("@_id", .str c.id), ("#text", .str c.name)])),
   ("labels", .obj [("label", .arr ((f.labels.getD []).map .str))]),
   ("due-date", ofOptStr f.duedate)]

/-- XML comments group, gated by `config.includeComments`. -/
def xmlComments (f : JiraIssueFields) (config : ExportConfig) : List (String × JSValue) :=
  match config.includeComments, f.comment with
  | true, some cb =>
    [("comments", .obj [("@_total", .num cb.total),
      ("comment", .arr (cb.comments.map fun c =>
        .obj [("@_id", .str c.id), ("@_author", .str c.author.displayName),
          ("@_created", .str c.created), ("@_updated", .str c.updated),
          ("#text", .str c.body)]))])]
  | _, _ => []

/-- XML attachments group, gated by `config.includeAttachments`. -/
def xmlAttachments (f : JiraIssueFields) (config : ExportConfig) : List (String × JSValue) :=
  match config.includeAttachments, f.attachment with
  | true, some atts =>
    [("attachments", .obj [("@_total", .num atts.length),
      ("attachment", .arr (atts.map fun a =>
        .obj [("@_id", .str a.id), ("@_name", .str a.filename), ("@_size", .num a.size),
          ("@_author", .str a.author.displayName), ("@_created", .str a.created),
          ("#text", .str a.content)]))])]
  | _, _ => []

/-- XML worklogs group, gated by `config.includeWorklog`. -/
def xmlWorklogs (f : JiraIssueFields) (config : ExportConfig) : List (String × JSValue) :=
  match config.includeWorklog, f.worklog with
  | true, some wb =>
    [("worklogs", .obj [("@_total", .num wb.total),
      ("worklog", .arr (wb.worklogs.map fun w =>
        .obj [("@_id", .str w.id), ("@_author", .str w.author.displayName),
          ("@_created", .str w.created), ("@_started", .str w.started),
          ("@_timeSpent", .str w.timeSpent), ("@_timeSpentSeconds", .num w.timeSpentSeconds),
          ("#text", .str (w.comment.getD ""))]))])]
  | _, _ => []

/-- XML subtasks group, gated by `config.includeSubtasks`. -/
def xmlSubtasks (f : JiraIssueFields) (config : ExportConfig) : List (String × JSValue) :=
  match config.includeSubtasks, f.subtasks with
  | true, some sts =>
    [("subtasks", .obj [("@_total", .num sts.length),
      ("subtask", .arr (sts.map fun st =>
        .obj [("@_id", .str st.id), ("@_key", .str st.key),
          ("@_type", .str st.fields.issuetype.name), ("@_status", .str st.fields.status.name),
          ("#text", .str st.fields.summary)]))])]
  | _, _ => []

/-- XML parent element: added whenever the issue has a parent,
independent of any flag. -/
def xmlParent (f : JiraIssueFields) : List (String × JSValue) :=
  match f.parent with
  | some p => [("parent", .obj [("@_id", .str p.id), ("@_key", .str p.key),
      ("#text", .str p.fields.summary)])]
  | none => []

/-- XML issue links group, gated by `config.includeLinks`. -/
def xmlLinks (f : JiraIssueFields) (config : ExportConfig) : List (String × JSValue) :=
  match config.includeLinks, f.issuelinks with
  | true, some links =>
    [("issuelinks", .obj [("@_total", .num links.length),
      ("issuelink", .arr (links.map fun link =>
        .obj [("@_id", .str link.id), ("@_type", .str link.type.name),
          ("@_direction", .str (if link.outwardIssue.isSome then "outward" else "inward")),
          ("@_linktype", .str (if link.outwardIssue.isSome then link.type.outward
            else link.type.inward)),
          ("issuekey", match link.outwardIssue.orElse (fun _ => link.inwardIssue) with
            | some li => .str li.key
            | none => .undefined),
          ("summary", match link.outwardIssue.orElse (fun _ => link.inwardIssue) with
            | some li => .str li.fields.summary
            | none => .undefined)]))])]
  | _, _ => []

/-- JavaScript object property assignment `o[k] = v` on an ordered
association list: overwrite in place when the key exists, append
otherwise. -/
def objAssign (fields : List (String × JSValue)) (k : String) (v : JSValue) :
    List (String × JSValue) :=
  if fields.any (fun p => p.1 == k) then
    fields.map (fun p => if p.1 == k then (k, v) else p)
  else fields ++ [(k, v)]

/-- The `customFields` accumulation loop of
`XmlExporter.convertIssueToXml`: for every key of the include-list that
uses the `customfield_` naming convention and is present non-null on
the issue, assign its normalized value. -/
def cfStep (cf : List (String × JSValue)) (acc : List (String × JSValue))
    (fieldKey : String) : List (String × JSValue) :=
  if jsStartsWith fieldKey "customfield_" then
    match cf.lookup fieldKey with
    | some fieldValue =>
      if !fieldValue.isNull then objAssign acc fieldKey (normalizeCustomField fieldValue)
      else acc
    | none => acc
  else acc

def customFieldsFor (includeFields : List String) (cf : List (String × JSValue)) :
    List (String × JSValue) :=
  includeFields.foldl (cfStep cf) []

/-- XML custom fields group: only when the include-list is non-empty
and at least one listed custom field is present non-null. -/
def xmlCustom (f : JiraIssueFields) (config : ExportConfig) : List (String × JSValue) :=
  if config.includeFields.isEmpty then []
  else
    let cfs := customFieldsFor config.includeFields f.customFields
    if cfs.isEmpty then [] else [("customfields", .obj cfs)]

/-- `XmlExporter.convertIssueToXml`. -/
def convertIssueToXml (issue : JiraIssue) (config : ExportConfig) :
    List (String × JSValue) :=
  xmlBase issue
    ++ xmlComments issue.fields config
    ++ xmlAttachments issue.fields config
    ++ xmlWorklogs issue.fields config
    ++ xmlSubtasks issue.fields config
    ++ xmlParent issue.fields
    ++ xmlLinks issue.fields config
    ++ xmlCustom issue.fields config

/-! ## Serializers

Models of the external serialization collaborators: `Papa.unparse`
(with `header: true, delimiter: ',', quotes: true`),
`JSON.stringify(·, null, 2)`, and the `fast-xml-parser` `XMLBuilder`.
No claim inspects the XML text itself, so the XML builder is a plain
element renderer; the CSV and JSON models follow the libraries'
documented behaviour. -/

/-- Stringification of a cell value as `Papa.unparse` does
(`null`/`undefined` become the empty string, other values their
JavaScript string conversion). -/
def papaCell : JSValue → String
  | .null => ""
  | .undefined => ""
  | .bool b => if b then "true" else "false"
  | .num q => ratRender q
  | .str s => s
  | .arr xs => String.intercalate "," (xs.map fun x =>
      match x with
      | .str s => s
      | .num q => ratRender q
      | _ => "")
  | .obj _ => "[object Object]"

/-- A CSV field under `quotes: true`: always wrapped in double quotes,
inner quotes doubled. -/
def csvQuote (s : String) : String :=
  "\"" ++ String.mk (s.data.foldr (fun c acc =>
    if c = '"' then '"' :: '"' :: acc else c :: acc) []) ++ "\""

/-- `Papa.unparse(rows, {header: true, delimiter: ',', quotes: true})`
on an array of row objects: the column set is taken from the FIRST
row's keys (so an empty array produces an empty string — there is no
row to derive a header from); later rows are read back through those
keys, missing keys becoming empty cells.  Rows are joined with
`\r\n`. -/
def papaUnparse (rows : List (List (String × JSValue))) : String :=
  match rows with
  | [] => ""
  | r0 :: _ =>
    let fields := r0.map Prod.fst
    let headerLine := String.intercalate "," (fields.map csvQuote)
    let dataLines := rows.map fun r =>
      String.intercalate "," (fields.map fun fld =>
        csvQuote (papaCell ((r.lookup fld).getD .undefined)))
    String.intercalate "\r\n" (headerLine :: dataLines)

/-- Space indentation used by `JSON.stringify(·, null, 2)`. -/
def jsonInd (depth : Nat) : String :=
  String.mk (List.replicate (2 * depth) ' ')

mutual

/-- `JSON.stringify(·, null, 2)`: the pretty-printed form with 2-space
indentation. -/
def jsonStringifyIndent (depth : Nat) : JSValue → String
  | .arr [] => "[]"
  | .arr xs =>
    "[\n" ++ String.intercalate ",\n" (jsonIndentList (depth + 1) xs)
      ++ "\n" ++ jsonInd depth ++ "]"
  | .obj fields =>
    match jsonIndentFields (depth + 1) fields with
    | [] => "\x7b\x7d"
    | rendered =>
      "\x7b\n" ++ String.intercalate ",\n" rendered ++ "\n" ++ jsonInd depth ++ "\x7d"
  | v => jsonStringify v

/-- Pretty-printed elements of a JSON array. -/
def jsonIndentList (depth : Nat) : List JSValue → List String
  | [] => []
  | x :: xs => (jsonInd depth ++ jsonStringifyIndent depth x) :: jsonIndentList depth xs

/-- Pretty-printed properties of a JSON object, skipping
`undefined`-valued properties. -/
def jsonIndentFields (depth : Nat) : List (String × JSValue) → List String
  | [] => []
  | (k, v) :: fs =>
    if v.isUndefined then jsonIndentFields depth fs
    else (jsonInd depth ++ "\"" ++ jsonEscape k ++ "\": " ++ jsonStringifyIndent depth v)
      :: jsonIndentFields depth fs

end

mutual

/-- Rendering of one named node by the `XMLBuilder` model: `@_` keys
become attributes, `#text` the text content, other keys child
elements; arrays repeat the element; `undefined` nodes are
suppressed. -/
def xmlNode (name : String) : JSValue → String
  | .undefined => ""
  | .arr xs => xmlNodeList name xs
  | .obj fields =>
    let attrs := fields.foldl (fun acc p =>
      match p with
      | (k, .str s) =>
        if jsStartsWith k "@_" then acc ++ " " ++ (k.data.drop 2).asString ++ "=\"" ++ s ++ "\""
        else acc
      | (k, .num q) =>
        if jsStartsWith k "@_" then acc ++ " " ++ (k.data.drop 2).asString ++ "=\"" ++ ratRender q ++ "\""
        else acc
      | _ => acc) ""
    let body := xmlBody fields
    "<" ++ name ++ attrs ++ ">" ++ body ++ "</" ++ name ++ ">"
  | .null => ""
  | v => "<" ++ name ++ ">" ++ papaCell v ++ "</" ++ name ++ ">"

/-- Repeated elements for an array-valued node. -/
def xmlNodeList (name : String) : List JSValue → String
  | [] => ""
  | x :: xs => xmlNode name x ++ xmlNodeList name xs

/-- Children and text content of an element. -/
def xmlBody : List (String × JSValue) → String
  | [] => ""
  | (k, v) :: fs =>
    (if jsStartsWith k "@_" then ""
     else if k = "#text" then papaCell v
     else xmlNode k v) ++ xmlBody fs

end

/-! ## The export orchestrator

`ExportService.export` and the three per-format drivers.  The per-issue
loop — events every 10th processed issue with a recomputed ETA — is
textually identical in `exportJson`, `exportCsv` and
`XmlExporter.exportToXml`, and is factored here into `runLoop`.

Wall-clock reads are made explicit: `Clock.elapsedAt k` is the value of
`Date.now() - startTime.getTime()` observed when the `k`-th issue has
just been processed, and the ISO date strings baked into filenames and
metadata are `Clock` fields.

The REST layer (`JiraClient.search`) casts the parsed JSON response to
`JiraIssue[]` without validation, so at runtime an array element may
fail to conform to the interface, in which case projecting it raises a
`TypeError` that the orchestrator's `try/catch` handles.  `RuntimeIssue`
models this: `ok` wraps a conforming issue, `malformed msg` an object
whose projection throws an error carrying `msg`. -/

inductive Stage where
  | fetching | processing | exporting | complete | error
deriving DecidableEq, Repr

/-- `ProgressInfo` from `types/app.ts` (the `startTime` field, a shared
`Date` object identity, carries no observable data and is omitted). -/
structure ProgressInfo where
  current : Nat
  total : Nat
  percentage : Int
  stage : Stage
  message : String
  estimatedTimeRemaining : Option Int
deriving DecidableEq, Repr

/-- The explicit wall clock of one export run. -/
structure Clock where
  elapsedAt : Nat → Rat
  dateStr : String
  isoNow : String

/-- A runtime element of the `issues` array: conforming, or malformed
in a way that makes its projection throw with the given message. -/
inductive RuntimeIssue where
  | ok : JiraIssue → RuntimeIssue
  | malformed : String → RuntimeIssue

/-- The saved output of a successful export (`saveAs(blob, filename)`
with the blob's content and MIME type). -/
structure Artifact where
  content : String
  filename : String
  mimeType : String
deriving DecidableEq, Repr

/-- `Math.round((processedCount / issues.length) * 100)`. -/
def pctOf (n k : Nat) : Int := jsRound ((k : Rat) / (n : Rat) * 100)

/-- The `processing` progress event emitted at the `k`-th processed
issue of `n`, with the recomputed ETA
`Math.round(((elapsed / k) * n - elapsed) / 1000)`. -/
def loopEvent (n : Nat) (el : Nat → Rat) (k : Nat) : ProgressInfo :=
  { current := k
    total := n
    percentage := pctOf n k
    stage := .processing
    message := "Processing issue " ++ toString k ++ " of " ++ toString n
    estimatedTimeRemaining := some (jsRound ((el k / (k : Rat) * (n : Rat) - el k) / 1000)) }

/-- The per-issue loop shared verbatim by the three exporters: process
each issue in order, and after every 10th processed issue (when a
callback is installed) emit a `processing` event; a thrown projection
error aborts the loop, keeping the events already emitted. -/
def runLoop {α : Type} (process : RuntimeIssue → Except String α) (n : Nat) (op : Bool)
    (el : Nat → Rat) : List RuntimeIssue → Nat → List ProgressInfo × Except String (List α)
  | [], _ => ([], .ok [])
  | issue :: rest, k =>
    match process issue with
    | .error e => ([], .error e)
    | .ok a =>
      let k1 := k + 1
      let evs := if op && k1 % 10 == 0 then [loopEvent n el k1] else []
      let (evs2, res) := runLoop process n op el rest k1
      (evs ++ evs2, res.map (a :: ·))

/-- The `processing` event emitted before the loop by the CSV and XML
drivers (`Preparing … export...`). -/
def prepEvent (n : Nat) (msg : String) : ProgressInfo :=
  { current := 0, total := n, percentage := 0, stage := .processing, message := msg
    estimatedTimeRemaining := none }

/-- The `exporting` event emitted after the loop (`Generating …`). -/
def exportingEvent (n : Nat) (msg : String) : ProgressInfo :=
  { current := n, total := n, percentage := 100, stage := .exporting, message := msg
    estimatedTimeRemaining := none }

/-- The final `complete` event, forced to percentage 100. -/
def completeEvent (n : Nat) (msg : String) : ProgressInfo :=
  { current := n, total := n, percentage := 100, stage := .complete, message := msg
    estimatedTimeRemaining := none }

/-- Projection step of the JSON driver on a runtime issue. -/
def processRuntimeJson (config : ExportConfig) : RuntimeIssue → Except String (List (String × JSValue))
  | .ok issue => .ok (processIssueForJson issue config)
  | .malformed e => .error e

/-- Projection step of the CSV driver on a runtime issue. -/
def processRuntimeCsv (config : ExportConfig) : RuntimeIssue → Except String (List (String × JSValue))
  | .ok issue => .ok (processIssueForCsv issue config)
  | .malformed e => .error e

/-- Conversion step of the XML driver on a runtime issue. -/
def processRuntimeXml (config : ExportConfig) : RuntimeIssue → Except String (List (String × JSValue))
  | .ok issue => .ok (convertIssueToXml issue config)
  | .malformed e => .error e

/-- The `exportData` object serialized by `ExportService.exportJson`. -/
def exportDataValue (rows : List (List (String × JSValue))) (n : Nat) (ck : Clock) : JSValue :=
  .obj [("metadata", .obj [("exportDate", .str ck.isoNow), ("totalIssues", .num n),
      ("format", .str "json"), ("version", .str "1.0.0")]),
    ("issues", .arr (rows.map .obj))]

/-- `ExportService.exportJson`: loop, `exporting` event, serialization,
save, `complete` event. -/
def exportJsonRun (issues : List RuntimeIssue) (config : ExportConfig) (op : Bool)
    (ck : Clock) : List ProgressInfo × Except String Artifact :=
  let n := issues.length
  match runLoop (processRuntimeJson config) n op ck.elapsedAt issues 0 with
  | (evs, .error e) => (evs, .error e)
  | (evs, .ok rows) =>
    let content := jsonStringifyIndent 0 (exportDataValue rows n ck)
    (evs ++ (if op then [exportingEvent n "Generating JSON..."] else [])
      ++ (if op then [completeEvent n "JSON export complete"] else []),
     .ok { content := content, filename := "jira-export-" ++ ck.dateStr ++ ".json"
           mimeType := "application/json;charset=utf-8" })

/-- `ExportService.exportCsv`: initial `processing` event, loop,
`exporting` event, `Papa.unparse`, save, `complete` event. -/
def exportCsvRun (issues : List RuntimeIssue) (config : ExportConfig) (op : Bool)
    (ck : Clock) : List ProgressInfo × Except String Artifact :=
  let n := issues.length
  let init := if op then [prepEvent n "Preparing CSV export..."] else []
  match runLoop (processRuntimeCsv config) n op ck.elapsedAt issues 0 with
  | (evs, .error e) => (init ++ evs, .error e)
  | (evs, .ok rows) =>
    (init ++ evs ++ (if op then [exportingEvent n "Generating CSV..."] else [])
      ++ (if op then [completeEvent n "CSV export complete"] else []),
     .ok { content := papaUnparse rows, filename := "jira-export-" ++ ck.dateStr ++ ".csv"
           mimeType := "text/csv;charset=utf-8" })

/-- The document structure built by `XmlExporter.exportToXml`. -/
def xmlDocString (items : List (List (String × JSValue))) (n : Nat) (ck : Clock) : String :=
  "<?xml version=\"1.0\" encoding=\"UTF-8\"?>"
    ++ xmlNode "rss" (.obj [("@_version", .str "2.0"),
      ("@_xmlns:jira", .str "http://www.atlassian.com/jira"),
      ("@_xmlns:dc", .str "http://purl.org/dc/elements/1.1/"),
      ("channel", .obj [("title", .str "JIRA Feature Extract"), ("link", .str "#"),
        ("description", .str ("Exported " ++ toString n ++ " issues")),
        ("language", .str "en-uk"),
        ("build-info", .obj [("version", .str "1.0.0"), ("build-number", .str "1"),
          ("build-date", .str ck.isoNow)]),
        ("item", .arr (items.map .obj))])])

/-- `XmlExporter.exportToXml` followed by `ExportService.exportXml`'s
save: initial `processing` event, loop, `exporting` event, build,
`complete` event, download. -/
def exportXmlRun (issues : List RuntimeIssue) (config : ExportConfig) (op : Bool)
    (ck : Clock) : List ProgressInfo × Except String Artifact :=
  let n := issues.length
  let init := if op then [prepEvent n "Preparing XML export..."] else []
  match runLoop (processRuntimeXml config) n op ck.elapsedAt issues 0 with
  | (evs, .error e) => (init ++ evs, .error e)
  | (evs, .ok items) =>
    (init ++ evs ++ (if op then [exportingEvent n "Generating XML..."] else [])
      ++ (if op then [completeEvent n "Export complete"] else []),
     .ok { content := xmlDocString items n ck
           filename := "jira-export-" ++ ck.dateStr ++ ".xml"
           mimeType := "application/xml;charset=utf-8" })

/-- The `switch (config.format)` dispatch inside the `try` block of
`ExportService.export`, including the `default` throw. -/
def dispatch (issues : List RuntimeIssue) (config : ExportConfig) (op : Bool)
    (ck : Clock) : List ProgressInfo × Except String Artifact :=
  if config.format = "xml" then exportXmlRun issues config op ck
  else if config.format = "json" then exportJsonRun issues config op ck
  else if config.format = "csv" then exportCsvRun issues config op ck
  else ([], .error ("Unsupported export format: " ++ config.format))

/-- The initial event of `ExportService.export`
(`Starting <FORMAT> export...`). -/
def startEvent (n : Nat) (format : String) : ProgressInfo :=
  { current := 0, total := n, percentage := 0, stage := .processing
    message := "Starting " ++ jsToUpperCase format ++ " export..."
    estimatedTimeRemaining := none }

/-- The `error` event emitted by the `catch` block: counters reset to
zero, carrying the failure's message. -/
def errorEvent (n : Nat) (msg : String) : ProgressInfo :=
  { current := 0, total := n, percentage := 0, stage := .error, message := msg
    estimatedTimeRemaining := none }

/-- The observable outcome of one `ExportService.export` call: the
progress events in emission order, the returned/thrown result, and the
artifact handed to `saveAs` (none when the call throws). -/
structure RunOutcome where
  events : List ProgressInfo
  result : Except String Unit
  saved : Option Artifact

/-- `ExportService.export`: emit the starting event, dispatch on the
format, and on any exception emit a single `error` event and
re-throw. -/
def exportRun (issues : List RuntimeIssue) (config : ExportConfig) (op : Bool)
    (ck : Clock) : RunOutcome :=
  let n := issues.length
  let init := if op then [startEvent n config.format] else []
  match dispatch issues config op ck with
  | (evs, .ok art) => { events := init ++ evs, result := .ok (), saved := some art }
  | (evs, .error e) =>
    { events := init ++ evs ++ (if op then [errorEvent n e] else [])
      result := .error e, saved := none }

def ck0 : Clock := { elapsedAt := fun k => 100 * k, dateStr := "2026-01-01", isoNow := "2026-01-01T00:00:00.000Z" }

def sampleStatus : JiraStatus :=
  { id := "1", name := "Open", description := "d", statusCategory := { name := "To Do" } }

def sampleType : JiraIssueType :=
  { id := "3", name := "Task", subtask := false, iconUrl := "i" }

def sampleParentRef : IssueRef :=
  { id := "10", key := "PROJ-1",
    fields := { summary := "Parent", status := sampleStatus, issuetype := sampleType } }

def sampleFields : JiraIssueFields :=
  { summary := "Child", description := none, issuetype := sampleType,
    project := { id := "10", key := "PROJ", name := "Project" },
    status := sampleStatus,
    priority := none, resolution := none, assignee := none, reporter := none,
    created := "2026-01-01", updated := "2026-01-02",
    resolutiondate := none, duedate := none,
    components := none, fixVersions := none, versions := none, labels := none,
    environment := none, comment := none, attachment := none, worklog := none,
    parent := some sampleParentRef, subtasks := none, issuelinks := none,
    customFields := [("customfield_100", .obj [("value", .str "x")])] }

def sampleIssue : JiraIssue :=
  { id := "1001", self := "http://jira/issue/1001", key := "PROJ-2", fields := sampleFields }

def okIssues (m : Nat) : List RuntimeIssue := List.replicate m (RuntimeIssue.ok sampleIssue)

/-- The monotonicity relation of claim C4. -/
def MonoR (a b : ProgressInfo) : Prop :=
  a.current ≤ b.current ∧ a.percentage ≤ b.percentage

def jsonBaseKeys : List String :=
  ["id", "key", "self", "summary", "description", "issueType", "project", "status",
   "priority", "assignee", "reporter", "created", "updated", "resolutionDate", "dueDate",
   "labels", "components", "fixVersions", "versions"]

def csvBaseKeys : List String :=
  ["Issue ID", "Issue Key", "Summary", "Description", "Issue Type", "Project Key",
   "Project Name", "Status", "Priority", "Assignee", "Reporter", "Created", "Updated",
   "Resolution Date", "Due Date", "Labels", "Components", "Fix Versions", "Versions"]

def xmlBaseKeys : List String :=
  ["@_id", "title", "link", "project-key", "description", "environment", "key", "summary",
   "type", "priority", "status", "resolution", "assignee", "reporter", "created", "updated",
   "resolved", "version", "fix-version", "component", "labels", "due-date"]

/-- All boolean inclusion flags off and an empty custom-field
include-list. -/
def flagsOff (c : ExportConfig) : Prop :=
  c.includeComments = false ∧ c.includeAttachments = false ∧ c.includeWorklog = false
    ∧ c.includeSubtasks = false ∧ c.includeLinks = false ∧ c.includeFields = []

def baseConfig : ExportConfig :=
  { format := "json", includeFields := [], includeComments := false,
    includeAttachments := false, includeWorklog := false, includeSubtasks := false,
    includeLinks := false }

def bogusConfig : ExportConfig := { baseConfig with format := "bogus" }

def csvConfig : ExportConfig := { baseConfig with format := "csv" }

def cfConfig : ExportConfig := { baseConfig with includeFields := ["customfield_100"] }

def boomIssues : List RuntimeIssue := [RuntimeIssue.malformed "boom"]

def failIssues : List RuntimeIssue :=
  okIssues 14 ++ [RuntimeIssue.malformed "bad"] ++ okIssues 8

/-! ## Properties

General lemmas about the loop and the projected records, followed by
the claim theorems, their witnesses and counterexamples. -/

/-- Every event the per-issue loop emits is a `loopEvent` at some index
`j` with `k < j ≤ k + issues.length` and `j` a multiple of 10. -/
theorem runLoop_mem {α : Type} (p : RuntimeIssue → Except String α) (n : Nat) (op : Bool)
    (el : Nat → Rat) :
    ∀ (issues : List RuntimeIssue) (k : Nat) e, e ∈ (runLoop p n op el issues k).1 →
      ∃ j, e = loopEvent n el j ∧ k < j ∧ j ≤ k + issues.length ∧ j % 10 = 0
  | [], k, e, he => by simp [runLoop] at he
  | issue :: rest, k, e, he => by
    rw [runLoop] at he
    rcases hp : p issue with e' | a
    · simp [hp] at he
    · rcases hr : runLoop p n op el rest (k + 1) with ⟨evs2, res2⟩
      cases hc : (op && (k + 1) % 10 == 0) with
      | false =>
        simp [hp, hr, hc] at he
        obtain ⟨j, hj1, hj2, hj3, hj4⟩ :=
          runLoop_mem p n op el rest (k + 1) e (by rw [hr]; exact he)
        exact ⟨j, hj1, Nat.lt_of_succ_lt hj2, by simp only [List.length_cons]; omega, hj4⟩
      | true =>
        simp [hp, hr, hc] at he
        rcases he with rfl | he
        · refine ⟨k + 1, rfl, Nat.lt_succ_self k, by simp, ?_⟩
          have := (Bool.and_eq_true _ _).mp hc
          simpa using this.2
        · obtain ⟨j, hj1, hj2, hj3, hj4⟩ :=
            runLoop_mem p n op el rest (k + 1) e (by rw [hr]; exact he)
          exact ⟨j, hj1, Nat.lt_of_succ_lt hj2, by simp only [List.length_cons]; omega, hj4⟩

/-- The loop events have strictly increasing `current` and non-decreasing
`percentage`. -/
theorem runLoop_chain {α : Type} (p : RuntimeIssue → Except String α) (n : Nat) (op : Bool)
    (el : Nat → Rat) (hmono : ∀ j j', j ≤ j' → pctOf n j ≤ pctOf n j') :
    ∀ (issues : List RuntimeIssue) (k : Nat),
      (runLoop p n op el issues k).1.Chain'
        (fun a b => a.current < b.current ∧ a.percentage ≤ b.percentage)
  | [], k => by simp [runLoop]
  | issue :: rest, k => by
    rw [runLoop]
    rcases hp : p issue with e' | a
    · simp
    · simp only
      rw [List.chain'_append]
      refine ⟨?_, runLoop_chain p n op el hmono rest (k + 1), ?_⟩
      · split <;> simp
      · intro x hx y hy
        rcases hc : (op && (k + 1) % 10 == 0) with _ | _
        · simp [hc] at hx
        · simp [hc] at hx
          subst hx
          have hy' : y ∈ (runLoop p n op el rest (k + 1)).1 := List.mem_of_mem_head? hy
          obtain ⟨j, rfl, hj2, -, -⟩ := runLoop_mem p n op el rest (k + 1) y hy'
          exact ⟨hj2, hmono _ _ (Nat.le_of_lt hj2)⟩

/-- When the loop completes without error, a `loopEvent` is emitted at
every multiple of 10 within range. -/
theorem runLoop_ok_mem {α : Type} (p : RuntimeIssue → Except String α) (n : Nat)
    (el : Nat → Rat) :
    ∀ (issues : List RuntimeIssue) (k : Nat) (rs : List α) j,
      (runLoop p n true el issues k).2 = .ok rs →
      k < j → j ≤ k + issues.length → j % 10 = 0 →
      loopEvent n el j ∈ (runLoop p n true el issues k).1
  | [], k, rs, j, hok, hlt, hle, hmod => by
    simp at hle
    omega
  | issue :: rest, k, rs, j, hok, hlt, hle, hmod => by
    rw [runLoop] at hok ⊢
    rcases hp : p issue with e' | a
    · simp [hp] at hok
    · simp only [hp] at hok ⊢
      rcases hrl : (runLoop p n true el rest (k + 1)).2 with e2 | rs2
      · rw [hrl] at hok
        simp [Except.map] at hok
      · rcases Nat.eq_or_lt_of_le (Nat.succ_le_of_lt hlt) with heq | hlt'
        · subst heq
          simp [hmod]
        · have hmem := runLoop_ok_mem p n el rest (k + 1) rs2 j hrl hlt'
            (by simp only [List.length_cons] at hle; omega) hmod
          simp
          right
          exact hmem

theorem jsRound_mono {q r : Rat} (h : q ≤ r) : jsRound q ≤ jsRound r :=
  Int.floor_le_floor (by linarith)

theorem pctOf_mono (n : Nat) {j j' : Nat} (h : j ≤ j') : pctOf n j ≤ pctOf n j' := by
  apply jsRound_mono
  have : (j : Rat) / (n : Rat) ≤ (j' : Rat) / (n : Rat) :=
    div_le_div_of_nonneg_right (by exact_mod_cast h) (by positivity)
  nlinarith

theorem pctOf_nonneg (n j : Nat) : 0 ≤ pctOf n j := by
  unfold pctOf jsRound
  have h1 : (0 : Rat) ≤ (j : Rat) / (n : Rat) * 100 := by positivity
  have : (0 : Int) ≤ ⌊(0 : Rat) + 1 / 2⌋ := by norm_num
  calc (0 : Int) = ⌊(0 : Rat) + 1 / 2⌋ := by norm_num
    _ ≤ _ := Int.floor_le_floor (by linarith)

theorem pctOf_le_100 (n : Nat) {j : Nat} (h : j ≤ n) : pctOf n j ≤ 100 := by
  unfold pctOf jsRound
  have h1 : (j : Rat) / (n : Rat) * 100 ≤ 100 := by
    rcases Nat.eq_zero_or_pos n with hn | hn
    · subst hn
      simp
    · have hc : (0 : Rat) < (n : Rat) := by exact_mod_cast hn
      have : (j : Rat) / (n : Rat) ≤ 1 := by
        rw [div_le_one hc]
        exact_mod_cast h
      nlinarith
  calc ⌊(j : Rat) / (n : Rat) * 100 + 1 / 2⌋ ≤ ⌊(100 : Rat) + 1 / 2⌋ :=
        Int.floor_le_floor (by linarith)
    _ = 100 := by norm_num [Int.floor_eq_iff]

theorem chain'_of_forall {α : Type} {R : α → α → Prop} :
    ∀ (l : List α), (∀ a ∈ l, ∀ b ∈ l, R a b) → l.Chain' R
  | [], _ => List.chain'_nil
  | [_], _ => by simp
  | a :: b :: l, h => by
    rw [List.chain'_cons]
    exact ⟨h a (by simp) b (by simp),
      chain'_of_forall (b :: l) (fun x hx y hy =>
        h x (List.mem_cons_of_mem a hx) y (List.mem_cons_of_mem a hy))⟩

theorem sandwich (n : Nat) (el : Nat → Rat) (pre mid : List ProgressInfo) (g c : ProgressInfo)
    (hpre : ∀ e ∈ pre, e.current = 0 ∧ e.percentage = 0 ∧ e.total = n)
    (hmid : ∀ e ∈ mid, ∃ j, e = loopEvent n el j ∧ j ≤ n)
    (hchain : mid.Chain' (fun a b => a.current < b.current ∧ a.percentage ≤ b.percentage))
    (hg : g.current = n ∧ g.percentage = 100 ∧ g.total = n)
    (hc : c.current = n ∧ c.percentage = 100 ∧ c.total = n) :
    (pre ++ mid ++ [g] ++ [c]).Chain' MonoR
    ∧ (∀ e ∈ pre ++ mid ++ [g] ++ [c], e.current ≤ e.total)
    ∧ (pre ++ mid ++ [g] ++ [c]).getLast? = some c := by
  have hmid' : ∀ e ∈ mid, e.current ≤ n ∧ 0 ≤ e.percentage ∧ e.percentage ≤ 100
      ∧ e.total = n := by
    intro e he
    obtain ⟨j, rfl, hj⟩ := hmid e he
    exact ⟨hj, pctOf_nonneg n j, pctOf_le_100 n hj, rfl⟩
  refine ⟨?_, ?_, ?_⟩
  · rw [List.append_assoc, List.append_assoc, List.chain'_append]
    refine ⟨chain'_of_forall pre (fun a ha b hb => ⟨by rw [(hpre a ha).1]; exact Nat.zero_le _,
        by rw [(hpre a ha).2.1, (hpre b hb).2.1]⟩), ?_, ?_⟩
    · rw [List.chain'_append]
      refine ⟨hchain.imp (fun a b hab => ⟨Nat.le_of_lt hab.1, hab.2⟩), ?_, ?_⟩
      · rw [List.singleton_append, List.chain'_cons]
        exact ⟨⟨by rw [hg.1, hc.1], by rw [hg.2.1, hc.2.1]⟩, List.chain'_singleton _⟩
      · intro x hx y hy
        have hxm := hmid' x (List.mem_of_mem_getLast? hx)
        have hyg : g = y := by simpa using hy
        exact ⟨by rw [← hyg, hg.1]; exact hxm.1, by rw [← hyg, hg.2.1]; exact hxm.2.2.1⟩
    · intro x hx y hy
      have hx0 := hpre x (List.mem_of_mem_getLast? hx)
      have hym := List.mem_of_mem_head? hy
      refine ⟨by rw [hx0.1]; exact Nat.zero_le _, ?_⟩
      rw [hx0.2.1]
      rcases List.mem_append.mp hym with hym | hym
      · exact (hmid' y hym).2.1
      · rcases List.mem_append.mp hym with hym | hym
        · rw [List.mem_singleton.mp hym, hg.2.1]; norm_num
        · rw [List.mem_singleton.mp hym, hc.2.1]; norm_num
  · intro e he
    rcases List.mem_append.mp he with he | he
    · rcases List.mem_append.mp he with he | he
      · rcases List.mem_append.mp he with he | he
        · have := hpre e he
          rw [this.1]
          exact Nat.zero_le _
        · have := hmid' e he
          rw [this.2.2.2]
          exact this.1
      · rw [List.mem_singleton.mp he, hg.1, hg.2.2]
    · rw [List.mem_singleton.mp he, hc.1, hc.2.2]
  · rw [show pre ++ mid ++ [g] ++ [c] = (pre ++ mid ++ [g]) ++ [c] by simp]
    exact List.getLast?_concat _

theorem exportJsonRun_ok (issues : List RuntimeIssue) (config : ExportConfig) (ck : Clock)
    (evs : List ProgressInfo) (art : Artifact)
    (h : exportJsonRun issues config true ck = (evs, .ok art)) :
    evs = (runLoop (processRuntimeJson config) issues.length true ck.elapsedAt issues 0).1
      ++ [exportingEvent issues.length "Generating JSON...",
          completeEvent issues.length "JSON export complete"] := by
  simp only [exportJsonRun] at h
  rcases hrl : runLoop (processRuntimeJson config) issues.length true ck.elapsedAt issues 0
    with ⟨levs, res⟩
  rw [hrl] at h
  rcases res with e | rows
  · simp at h
  · simp at h
    simp [← h.1]

theorem exportCsvRun_ok (issues : List RuntimeIssue) (config : ExportConfig) (ck : Clock)
    (evs : List ProgressInfo) (art : Artifact)
    (h : exportCsvRun issues config true ck = (evs, .ok art)) :
    evs = prepEvent issues.length "Preparing CSV export..."
      :: ((runLoop (processRuntimeCsv config) issues.length true ck.elapsedAt issues 0).1
      ++ [exportingEvent issues.length "Generating CSV...",
          completeEvent issues.length "CSV export complete"]) := by
  simp only [exportCsvRun] at h
  rcases hrl : runLoop (processRuntimeCsv config) issues.length true ck.elapsedAt issues 0
    with ⟨levs, res⟩
  rw [hrl] at h
  rcases res with e | rows
  · simp at h
  · simp at h
    simp [← h.1]

theorem exportXmlRun_ok (issues : List RuntimeIssue) (config : ExportConfig) (ck : Clock)
    (evs : List ProgressInfo) (art : Artifact)
    (h : exportXmlRun issues config true ck = (evs, .ok art)) :
    evs = prepEvent issues.length "Preparing XML export..."
      :: ((runLoop (processRuntimeXml config) issues.length true ck.elapsedAt issues 0).1
      ++ [exportingEvent issues.length "Generating XML...",
          completeEvent issues.length "Export complete"]) := by
  simp only [exportXmlRun] at h
  rcases hrl : runLoop (processRuntimeXml config) issues.length true ck.elapsedAt issues 0
    with ⟨levs, res⟩
  rw [hrl] at h
  rcases res with e | rows
  · simp at h
  · simp at h
    simp [← h.1]

/-- Claim C4, amended: for every run that completes without error (with
a callback installed), `current` and `percentage` are non-decreasing
along the emitted event sequence, `current ≤ total` in every event, and
the final event has percentage 100 and stage `complete` — also when
`total = 0`, where 100 is forced. -/
theorem progress_monotone_on_success (issues : List RuntimeIssue) (config : ExportConfig)
    (ck : Clock) (h : (exportRun issues config true ck).result = .ok ()) :
    (exportRun issues config true ck).events.Chain' MonoR
    ∧ (∀ e ∈ (exportRun issues config true ck).events, e.current ≤ e.total)
    ∧ (∃ e, (exportRun issues config true ck).events.getLast? = some e
        ∧ e.percentage = 100 ∧ e.stage = Stage.complete) := by
  rcases hd : dispatch issues config true ck with ⟨evs, res⟩
  rcases res with e | art
  · exfalso
    unfold exportRun at h
    rw [hd] at h
    simp at h
  · have hev : (exportRun issues config true ck).events
        = startEvent issues.length config.format :: evs := by
      unfold exportRun
      rw [hd]
      simp
    rw [hev]
    unfold dispatch at hd
    by_cases hx : config.format = "xml"
    · rw [if_pos hx] at hd
      have hshape := exportXmlRun_ok issues config ck evs art hd
      subst hshape
      have hS := sandwich issues.length ck.elapsedAt
        [startEvent issues.length config.format, prepEvent issues.length "Preparing XML export..."]
        (runLoop (processRuntimeXml config) issues.length true ck.elapsedAt issues 0).1
        (exportingEvent issues.length "Generating XML...")
        (completeEvent issues.length "Export complete")
        (by intro e he
            simp only [List.mem_cons, List.not_mem_nil, or_false] at he
            rcases he with rfl | rfl
            · exact ⟨rfl, rfl, rfl⟩
            · exact ⟨rfl, rfl, rfl⟩)
        (by intro e he
            obtain ⟨j, hj1, hj2, hj3, hj4⟩ := runLoop_mem _ _ _ _ _ _ e he
            exact ⟨j, hj1, by omega⟩)
        (runLoop_chain _ _ _ _ (fun j j' hj => pctOf_mono _ hj) issues 0)
        ⟨rfl, rfl, rfl⟩ ⟨rfl, rfl, rfl⟩
      have heq : startEvent issues.length config.format
          :: (prepEvent issues.length "Preparing XML export..."
            :: ((runLoop (processRuntimeXml config) issues.length true ck.elapsedAt issues 0).1
              ++ [exportingEvent issues.length "Generating XML...",
                  completeEvent issues.length "Export complete"]))
          = [startEvent issues.length config.format,
              prepEvent issues.length "Preparing XML export..."]
            ++ (runLoop (processRuntimeXml config) issues.length true ck.elapsedAt issues 0).1
            ++ [exportingEvent issues.length "Generating XML..."]
            ++ [completeEvent issues.length "Export complete"] := by
        simp
      rw [heq]
      exact ⟨hS.1, hS.2.1, completeEvent issues.length "Export complete", hS.2.2, rfl, rfl⟩
    · by_cases hj : config.format = "json"
      · rw [if_neg hx, if_pos hj] at hd
        have hshape := exportJsonRun_ok issues config ck evs art hd
        subst hshape
        have hS := sandwich issues.length ck.elapsedAt
          [startEvent issues.length config.format]
          (runLoop (processRuntimeJson config) issues.length true ck.elapsedAt issues 0).1
          (exportingEvent issues.length "Generating JSON...")
          (completeEvent issues.length "JSON export complete")
          (by intro e he
              simp only [List.mem_cons, List.not_mem_nil, or_false] at he
              subst he
              exact ⟨rfl, rfl, rfl⟩)
          (by intro e he
              obtain ⟨j, hj1, hj2, hj3, hj4⟩ := runLoop_mem _ _ _ _ _ _ e he
              exact ⟨j, hj1, by omega⟩)
          (runLoop_chain _ _ _ _ (fun j j' hjj => pctOf_mono _ hjj) issues 0)
          ⟨rfl, rfl, rfl⟩ ⟨rfl, rfl, rfl⟩
        have heq : startEvent issues.length config.format
            :: ((runLoop (processRuntimeJson config) issues.length true ck.elapsedAt issues 0).1
              ++ [exportingEvent issues.length "Generating JSON...",
                  completeEvent issues.length "JSON export complete"])
            = [startEvent issues.length config.format]
              ++ (runLoop (processRuntimeJson config) issues.length true ck.elapsedAt issues 0).1
              ++ [exportingEvent issues.length "Generating JSON..."]
              ++ [completeEvent issues.length "JSON export complete"] := by
          simp
        rw [heq]
        exact ⟨hS.1, hS.2.1, completeEvent issues.length "JSON export complete", hS.2.2, rfl, rfl⟩
      · by_cases hcsv : config.format = "csv"
        · rw [if_neg hx, if_neg hj, if_pos hcsv] at hd
          have hshape := exportCsvRun_ok issues config ck evs art hd
          subst hshape
          have hS := sandwich issues.length ck.elapsedAt
            [startEvent issues.length config.format,
              prepEvent issues.length "Preparing CSV export..."]
            (runLoop (processRuntimeCsv config) issues.length true ck.elapsedAt issues 0).1
            (exportingEvent issues.length "Generating CSV...")
            (completeEvent issues.length "CSV export complete")
            (by intro e he
                simp only [List.mem_cons, List.not_mem_nil, or_false] at he
                rcases he with rfl | rfl
                · exact ⟨rfl, rfl, rfl⟩
                · exact ⟨rfl, rfl, rfl⟩)
            (by intro e he
                obtain ⟨j, hj1, hj2, hj3, hj4⟩ := runLoop_mem _ _ _ _ _ _ e he
                exact ⟨j, hj1, by omega⟩)
            (runLoop_chain _ _ _ _ (fun j j' hjj => pctOf_mono _ hjj) issues 0)
            ⟨rfl, rfl, rfl⟩ ⟨rfl, rfl, rfl⟩
          have heq : startEvent issues.length config.format
              :: (prepEvent issues.length "Preparing CSV export..."
                :: ((runLoop (processRuntimeCsv config) issues.length true ck.elapsedAt issues 0).1
                  ++ [exportingEvent issues.length "Generating CSV...",
                      completeEvent issues.length "CSV export complete"]))
              = [startEvent issues.length config.format,
                  prepEvent issues.length "Preparing CSV export..."]
                ++ (runLoop (processRuntimeCsv config) issues.length true ck.elapsedAt issues 0).1
                ++ [exportingEvent issues.length "Generating CSV..."]
                ++ [completeEvent issues.length "CSV export complete"] := by
            simp
          rw [heq]
          exact ⟨hS.1, hS.2.1, completeEvent issues.length "CSV export complete", hS.2.2, rfl, rfl⟩
        · rw [if_neg hx, if_neg hj, if_neg hcsv] at hd
          exact absurd (congrArg Prod.snd hd) (by simp)

theorem exportJsonRun_stage (issues : List RuntimeIssue) (config : ExportConfig) (op : Bool)
    (ck : Clock) : ∀ ev ∈ (exportJsonRun issues config op ck).1, ev.stage ≠ Stage.error := by
  intro ev hev
  simp only [exportJsonRun] at hev
  rcases hrl : runLoop (processRuntimeJson config) issues.length op ck.elapsedAt issues 0
    with ⟨levs, res⟩
  rw [hrl] at hev
  have hloop : ∀ x ∈ levs, ProgressInfo.stage x ≠ Stage.error := by
    intro x hx
    obtain ⟨j, rfl, -, -, -⟩ := runLoop_mem _ _ _ _ issues 0 x (by rw [hrl]; exact hx)
    simp [loopEvent]
  rcases res with er | rows
  · exact hloop ev hev
  · simp at hev
    rcases hev with hev | hev | hev
    · exact hloop ev hev
    · rcases hev with ⟨-, rfl⟩
      simp [exportingEvent]
    · rcases hev with ⟨-, rfl⟩
      simp [completeEvent]

theorem exportCsvRun_stage (issues : List RuntimeIssue) (config : ExportConfig) (op : Bool)
    (ck : Clock) : ∀ ev ∈ (exportCsvRun issues config op ck).1, ev.stage ≠ Stage.error := by
  intro ev hev
  simp only [exportCsvRun] at hev
  rcases hrl : runLoop (processRuntimeCsv config) issues.length op ck.elapsedAt issues 0
    with ⟨levs, res⟩
  rw [hrl] at hev
  have hloop : ∀ x ∈ levs, ProgressInfo.stage x ≠ Stage.error := by
    intro x hx
    obtain ⟨j, rfl, -, -, -⟩ := runLoop_mem _ _ _ _ issues 0 x (by rw [hrl]; exact hx)
    simp [loopEvent]
  rcases res with er | rows
  · simp at hev
    rcases hev with ⟨-, rfl⟩ | hev
    · simp [prepEvent]
    · exact hloop ev hev
  · simp at hev
    rcases hev with ⟨-, rfl⟩ | hev | hev | hev
    · simp [prepEvent]
    · exact hloop ev hev
    · rcases hev with ⟨-, rfl⟩
      simp [exportingEvent]
    · rcases hev with ⟨-, rfl⟩
      simp [completeEvent]

theorem exportXmlRun_stage (issues : List RuntimeIssue) (config : ExportConfig) (op : Bool)
    (ck : Clock) : ∀ ev ∈ (exportXmlRun issues config op ck).1, ev.stage ≠ Stage.error := by
  intro ev hev
  simp only [exportXmlRun] at hev
  rcases hrl : runLoop (processRuntimeXml config) issues.length op ck.elapsedAt issues 0
    with ⟨levs, res⟩
  rw [hrl] at hev
  have hloop : ∀ x ∈ levs, ProgressInfo.stage x ≠ Stage.error := by
    intro x hx
    obtain ⟨j, rfl, -, -, -⟩ := runLoop_mem _ _ _ _ issues 0 x (by rw [hrl]; exact hx)
    simp [loopEvent]
  rcases res with er | rows
  · simp at hev
    rcases hev with ⟨-, rfl⟩ | hev
    · simp [prepEvent]
    · exact hloop ev hev
  · simp at hev
    rcases hev with ⟨-, rfl⟩ | hev | hev | hev
    · simp [prepEvent]
    · exact hloop ev hev
    · rcases hev with ⟨-, rfl⟩
      simp [exportingEvent]
    · rcases hev with ⟨-, rfl⟩
      simp [completeEvent]

theorem dispatch_stage (issues : List RuntimeIssue) (config : ExportConfig) (op : Bool)
    (ck : Clock) : ∀ ev ∈ (dispatch issues config op ck).1, ev.stage ≠ Stage.error := by
  unfold dispatch
  split
  · exact exportXmlRun_stage issues config op ck
  · split
    · exact exportJsonRun_stage issues config op ck
    · split
      · exact exportCsvRun_stage issues config op ck
      · simp

/-- Claim C2: whenever an exception is raised inside the dispatched
export body (projection, encoding or serialization) for a supported
format, the export emits exactly one `error`-stage event, as the final
event, carrying the failure's message, re-signals the failure to the
caller, and persists no output artifact. -/
theorem export_failure_single_error_event (issues : List RuntimeIssue) (config : ExportConfig)
    (ck : Clock) (e : String)
    (hfmt : config.format = "xml" ∨ config.format = "json" ∨ config.format = "csv")
    (herr : (dispatch issues config true ck).2 = .error e) :
    (exportRun issues config true ck).result = .error e
    ∧ (exportRun issues config true ck).saved = none
    ∧ (exportRun issues config true ck).events.getLast? = some (errorEvent issues.length e)
    ∧ (exportRun issues config true ck).events.countP
        (fun ev => ev.stage == Stage.error) = 1
    ∧ (errorEvent issues.length e).message = e := by
  rcases hd : dispatch issues config true ck with ⟨evs, res⟩
  have hstages : ∀ ev ∈ evs, ev.stage ≠ Stage.error := by
    intro ev hev
    exact dispatch_stage issues config true ck ev (by rw [hd]; exact hev)
  rw [hd] at herr
  rcases res with e' | art
  · have he' : e' = e := by simpa using herr
    subst he'
    have hev : (exportRun issues config true ck).events
        = startEvent issues.length config.format :: (evs ++ [errorEvent issues.length e']) := by
      unfold exportRun
      rw [hd]
      simp
    have hres : (exportRun issues config true ck).result = .error e' := by
      unfold exportRun
      rw [hd]
    have hsav : (exportRun issues config true ck).saved = none := by
      unfold exportRun
      rw [hd]
    refine ⟨hres, hsav, ?_, ?_, rfl⟩
    · rw [hev]
      rw [show startEvent issues.length config.format :: (evs ++ [errorEvent issues.length e'])
          = (startEvent issues.length config.format :: evs) ++ [errorEvent issues.length e']
        from by simp]
      exact List.getLast?_concat _
    · rw [hev]
      rw [List.countP_cons]
      rw [List.countP_append]
      have h1 : evs.countP (fun ev => ev.stage == Stage.error) = 0 := by
        rw [List.countP_eq_zero]
        intro a ha
        simpa using hstages a ha
      simp [h1, startEvent, errorEvent]
  · simp at herr

/-- Claim C9: whenever the export fails after at least one progress
event was emitted (the starting event always precedes the failure when
a callback is installed), the final `error`-stage event carries
`current = 0` and `percentage = 0`, not the counts the run had
reached. -/
theorem error_event_resets_counters (issues : List RuntimeIssue) (config : ExportConfig)
    (ck : Clock) (e : String)
    (herr : (exportRun issues config true ck).result = .error e) :
    2 ≤ (exportRun issues config true ck).events.length
    ∧ (exportRun issues config true ck).events.getLast? = some (errorEvent issues.length e)
    ∧ (errorEvent issues.length e).current = 0
    ∧ (errorEvent issues.length e).percentage = 0
    ∧ (errorEvent issues.length e).stage = Stage.error := by
  rcases hd : dispatch issues config true ck with ⟨evs, res⟩
  rcases res with e' | art
  · have he' : e' = e := by
      unfold exportRun at herr
      rw [hd] at herr
      simpa using herr
    subst he'
    have hev : (exportRun issues config true ck).events
        = startEvent issues.length config.format :: (evs ++ [errorEvent issues.length e']) := by
      unfold exportRun
      rw [hd]
      simp
    refine ⟨?_, ?_, rfl, rfl, rfl⟩
    · rw [hev]
      simp
    · rw [hev]
      rw [show startEvent issues.length config.format :: (evs ++ [errorEvent issues.length e'])
          = (startEvent issues.length config.format :: evs) ++ [errorEvent issues.length e']
        from by simp]
      exact List.getLast?_concat _
  · exfalso
    unfold exportRun at herr
    rw [hd] at herr
    simp at herr

/-- Claim C1, amended: for every issues list and every config whose
format is not xml/json/csv, the export fails with the explicit
"Unsupported export format" error, persists no artifact, and (when a
callback is provided) emits exactly two events: the initial
`processing`-stage starting event before the failure, then one error
event. -/
theorem unsupported_format_fails_fast (issues : List RuntimeIssue) (config : ExportConfig)
    (op : Bool) (ck : Clock)
    (h1 : config.format ≠ "xml") (h2 : config.format ≠ "json") (h3 : config.format ≠ "csv") :
    (exportRun issues config op ck).result
        = .error ("Unsupported export format: " ++ config.format)
    ∧ (exportRun issues config op ck).saved = none
    ∧ (exportRun issues config op ck).events
        = (if op then [startEvent issues.length config.format,
            errorEvent issues.length ("Unsupported export format: " ++ config.format)]
           else []) := by
  have hd : dispatch issues config op ck
      = ([], .error ("Unsupported export format: " ++ config.format)) := by
    unfold dispatch
    rw [if_neg h1, if_neg h2, if_neg h3]
  refine ⟨?_, ?_, ?_⟩
  · unfold exportRun
    rw [hd]
  · unfold exportRun
    rw [hd]
  · unfold exportRun
    rw [hd]
    cases op <;> simp

theorem lookup_eq_none_of {l : List (String × JSValue)} {k : String}
    (h : ∀ p ∈ l, k ≠ p.1) : l.lookup k = none := by
  induction l with
  | nil => rfl
  | cons p rest ih =>
    have hne : (k == p.1) = false := beq_eq_false_iff_ne.mpr (h p (by simp))
    cases p with
    | mk a b =>
      simp only [List.lookup]
      rw [show (k == a) = false from hne]
      exact ih (fun q hq => h q (by simp [hq]))

theorem lookup_append {l1 l2 : List (String × JSValue)} {k : String} :
    (l1 ++ l2).lookup k
      = match l1.lookup k with
        | some v => some v
        | none => l2.lookup k := by
  induction l1 with
  | nil => simp [List.lookup]
  | cons p rest ih =>
    cases p with
    | mk a b =>
      simp only [List.cons_append, List.lookup]
      cases hab : (k == a)
      · simpa using ih
      · simp

theorem lookup_append_right {l1 l2 : List (String × JSValue)} {k : String}
    (h : ∀ p ∈ l1, k ≠ p.1) : (l1 ++ l2).lookup k = l2.lookup k := by
  rw [lookup_append, lookup_eq_none_of h]

theorem lookup_append_left {l1 l2 : List (String × JSValue)} {k : String} {v : JSValue}
    (h : l1.lookup k = some v) : (l1 ++ l2).lookup k = some v := by
  rw [lookup_append, h]

theorem not_customfield_of_mem {s : String} (L : List String)
    (hL : L.all (fun t => !jsStartsWith t "customfield_") = true)
    (hs : s ∈ L) (h : jsStartsWith s "customfield_" = true) : False := by
  have := List.all_eq_true.mp hL s hs
  rw [h] at this
  simp at this

theorem jsonBase_key_mem (i : JiraIssue) : ∀ p ∈ jsonBase i, p.1 ∈ jsonBaseKeys := by
  simp only [jsonBase, List.forall_mem_cons, List.forall_mem_nil]
  refine ⟨?_, ?_, ?_, ?_, ?_, ?_, ?_, ?_, ?_, ?_, ?_, ?_, ?_, ?_, ?_, ?_, ?_, ?_, ?_, ?_⟩
    <;> first | decide | trivial

theorem jsonComments_key (f : JiraIssueFields) (c : ExportConfig) :
    ∀ p ∈ jsonComments f c, p.1 = "comments" := by
  unfold jsonComments
  split <;> simp

theorem jsonAttachments_key (f : JiraIssueFields) (c : ExportConfig) :
    ∀ p ∈ jsonAttachments f c, p.1 = "attachments" := by
  unfold jsonAttachments
  split <;> simp

theorem jsonWorklogs_key (f : JiraIssueFields) (c : ExportConfig) :
    ∀ p ∈ jsonWorklogs f c, p.1 = "worklogs" := by
  unfold jsonWorklogs
  split <;> simp

theorem jsonSubtasks_key (f : JiraIssueFields) (c : ExportConfig) :
    ∀ p ∈ jsonSubtasks f c, p.1 = "subtasks" := by
  unfold jsonSubtasks
  split <;> simp

theorem jsonLinks_key (f : JiraIssueFields) (c : ExportConfig) :
    ∀ p ∈ jsonLinks f c, p.1 = "issueLinks" := by
  unfold jsonLinks
  split <;> simp

theorem jsonParent_key (f : JiraIssueFields) :
    ∀ p ∈ jsonParent f, p.1 = "parent" := by
  unfold jsonParent
  split <;> simp

theorem processIssueForJson_key_not_custom (i : JiraIssue) (c : ExportConfig) :
    ∀ p ∈ processIssueForJson i c, jsStartsWith p.1 "customfield_" = false := by
  intro p hp
  unfold processIssueForJson at hp
  rcases List.mem_append.mp hp with hp | hp
  case inr => rw [jsonParent_key _ p hp]; decide
  rcases List.mem_append.mp hp with hp | hp
  case inr => rw [jsonLinks_key _ _ p hp]; decide
  rcases List.mem_append.mp hp with hp | hp
  case inr => rw [jsonSubtasks_key _ _ p hp]; decide
  rcases List.mem_append.mp hp with hp | hp
  case inr => rw [jsonWorklogs_key _ _ p hp]; decide
  rcases List.mem_append.mp hp with hp | hp
  case inr => rw [jsonAttachments_key _ _ p hp]; decide
  rcases List.mem_append.mp hp with hp | hp
  case inr => rw [jsonComments_key _ _ p hp]; decide
  have := jsonBase_key_mem i p hp
  revert this
  have : ∀ s ∈ jsonBaseKeys, jsStartsWith s "customfield_" = false := by decide
  intro hm
  exact this _ hm

theorem json_no_customfield (i : JiraIssue) (c : ExportConfig) (key : String)
    (h : jsStartsWith key "customfield_" = true) :
    (processIssueForJson i c).lookup key = none := by
  apply lookup_eq_none_of
  intro p hp heq
  have := processIssueForJson_key_not_custom i c p hp
  rw [← heq, h] at this
  exact Bool.noConfusion this

theorem csvBase_key_mem (i : JiraIssue) : ∀ p ∈ csvBase i, p.1 ∈ csvBaseKeys := by
  simp only [csvBase, List.forall_mem_cons, List.forall_mem_nil]
  refine ⟨?_, ?_, ?_, ?_, ?_, ?_, ?_, ?_, ?_, ?_, ?_, ?_, ?_, ?_, ?_, ?_, ?_, ?_, ?_, ?_⟩
    <;> first | decide | trivial

theorem csvParent_key (f : JiraIssueFields) :
    ∀ p ∈ csvParent f, p.1 = "Parent Key" ∨ p.1 = "Parent Summary" := by
  unfold csvParent
  split <;> simp

theorem csvSubtasks_key (f : JiraIssueFields) (c : ExportConfig) :
    ∀ p ∈ csvSubtasks f c, p.1 = "Subtasks Count" ∨ p.1 = "Subtasks" := by
  unfold csvSubtasks
  split <;> simp

theorem csvComments_key (f : JiraIssueFields) (c : ExportConfig) :
    ∀ p ∈ csvComments f c, p.1 = "Comments Count" := by
  unfold csvComments
  split <;> simp

theorem csvAttachments_key (f : JiraIssueFields) (c : ExportConfig) :
    ∀ p ∈ csvAttachments f c, p.1 = "Attachments Count" := by
  unfold csvAttachments
  split <;> simp

theorem csvWorklog_key (f : JiraIssueFields) (c : ExportConfig) :
    ∀ p ∈ csvWorklog f c, p.1 = "Worklog Count" ∨ p.1 = "Total Time Spent (seconds)"
      ∨ p.1 = "Total Time Spent (hours)" := by
  unfold csvWorklog
  split <;> simp

theorem processIssueForCsv_key_not_custom (i : JiraIssue) (c : ExportConfig) :
    ∀ p ∈ processIssueForCsv i c, jsStartsWith p.1 "customfield_" = false := by
  intro p hp
  unfold processIssueForCsv at hp
  rcases List.mem_append.mp hp with hp | hp
  case inr => rcases csvWorklog_key _ _ p hp with h | h | h <;> (rw [h]; decide)
  rcases List.mem_append.mp hp with hp | hp
  case inr => rw [csvAttachments_key _ _ p hp]; decide
  rcases List.mem_append.mp hp with hp | hp
  case inr => rw [csvComments_key _ _ p hp]; decide
  rcases List.mem_append.mp hp with hp | hp
  case inr => rcases csvSubtasks_key _ _ p hp with h | h <;> (rw [h]; decide)
  rcases List.mem_append.mp hp with hp | hp
  case inr => rcases csvParent_key _ p hp with h | h <;> (rw [h]; decide)
  have hm := csvBase_key_mem i p hp
  have hall : ∀ s ∈ csvBaseKeys, jsStartsWith s "customfield_" = false := by decide
  exact hall _ hm

theorem csv_no_customfield (i : JiraIssue) (c : ExportConfig) (key : String)
    (h : jsStartsWith key "customfield_" = true) :
    (processIssueForCsv i c).lookup key = none := by
  apply lookup_eq_none_of
  intro p hp heq
  have := processIssueForCsv_key_not_custom i c p hp
  rw [← heq, h] at this
  exact Bool.noConfusion this

theorem xmlBase_key_mem (i : JiraIssue) : ∀ p ∈ xmlBase i, p.1 ∈ xmlBaseKeys := by
  simp only [xmlBase, List.forall_mem_cons, List.forall_mem_nil]
  refine ⟨?_, ?_, ?_, ?_, ?_, ?_, ?_, ?_, ?_, ?_, ?_, ?_, ?_, ?_, ?_, ?_, ?_, ?_, ?_, ?_,
    ?_, ?_, ?_⟩ <;> first | decide | trivial

theorem xmlComments_key (f : JiraIssueFields) (c : ExportConfig) :
    ∀ p ∈ xmlComments f c, p.1 = "comments" := by
  unfold xmlComments
  split <;> simp

theorem xmlAttachments_key (f : JiraIssueFields) (c : ExportConfig) :
    ∀ p ∈ xmlAttachments f c, p.1 = "attachments" := by
  unfold xmlAttachments
  split <;> simp

theorem xmlWorklogs_key (f : JiraIssueFields) (c : ExportConfig) :
    ∀ p ∈ xmlWorklogs f c, p.1 = "worklogs" := by
  unfold xmlWorklogs
  split <;> simp

theorem xmlSubtasks_key (f : JiraIssueFields) (c : ExportConfig) :
    ∀ p ∈ xmlSubtasks f c, p.1 = "subtasks" := by
  unfold xmlSubtasks
  split <;> simp

theorem xmlParent_key (f : JiraIssueFields) :
    ∀ p ∈ xmlParent f, p.1 = "parent" := by
  unfold xmlParent
  split <;> simp

theorem xmlLinks_key (f : JiraIssueFields) (c : ExportConfig) :
    ∀ p ∈ xmlLinks f c, p.1 = "issuelinks" := by
  unfold xmlLinks
  split <;> simp

theorem xmlCustom_key (f : JiraIssueFields) (c : ExportConfig) :
    ∀ p ∈ xmlCustom f c, p.1 = "customfields" := by
  unfold xmlCustom
  split
  · simp
  · dsimp only
    split <;> simp

theorem objAssign_lookup_self (acc : List (String × JSValue)) (k : String) (v : JSValue) :
    (objAssign acc k v).lookup k = some v := by
  unfold objAssign
  split
  case isTrue hany =>
    induction acc with
    | nil => simp at hany
    | cons p rest ih =>
      cases p with
      | mk a b =>
        by_cases hak : a = k
        · subst hak
          simp only [List.map_cons]
          have hf : (if (((a, b) : String × JSValue).1 == a) = true then (a, v) else (a, b))
              = (a, v) := by simp
          rw [hf]
          simp [List.lookup]
        · simp only [List.map_cons]
          have hf : (if (((a, b) : String × JSValue).1 == k) = true then (k, v) else (a, b))
              = (a, b) := by simp [hak]
          rw [hf]
          simp only [List.lookup]
          rw [show (k == a) = false from beq_eq_false_iff_ne.mpr (Ne.symm hak)]
          apply ih
          have : (((a, b) : String × JSValue).1 == k) = false := by simp [hak]
          simpa [this] using hany
  case isFalse hany =>
    have hforall : ∀ p ∈ acc, k ≠ p.1 := by
      intro p hp heq
      apply hany
      rw [List.any_eq_true]
      exact ⟨p, hp, by simp [heq.symm]⟩
    rw [lookup_append_right hforall]
    simp [List.lookup]

theorem objAssign_lookup_ne (acc : List (String × JSValue)) (k k' : String) (v : JSValue)
    (h : k' ≠ k) : (objAssign acc k v).lookup k' = acc.lookup k' := by
  unfold objAssign
  split
  case isTrue hany =>
    clear hany
    induction acc with
    | nil => simp
    | cons p rest ih =>
      cases p with
      | mk a b =>
        simp only [List.map_cons]
        by_cases hak : a = k
        · subst hak
          have hf : (if (((a, b) : String × JSValue).1 == a) = true then (a, v) else (a, b))
              = (a, v) := by simp
          rw [hf]
          simp only [List.lookup]
          rw [show (k' == a) = false from beq_eq_false_iff_ne.mpr h]
          exact ih
        · have hf : (if (((a, b) : String × JSValue).1 == k) = true then (k, v) else (a, b))
              = (a, b) := by simp [hak]
          rw [hf]
          simp only [List.lookup]
          cases hka : (k' == a)
          · exact ih
          · rfl
  case isFalse hany =>
    rw [lookup_append]
    cases hl : acc.lookup k'
    · simp [List.lookup, beq_eq_false_iff_ne.mpr h]
    · rfl

theorem cfFold_preserve (cf : List (String × JSValue)) (k : String) (v : JSValue)
    (hv : cf.lookup k = some v) :
    ∀ (inc : List String) (acc : List (String × JSValue)),
      acc.lookup k = some (normalizeCustomField v) →
      (inc.foldl (cfStep cf) acc).lookup k = some (normalizeCustomField v)
  | [], _, hacc => hacc
  | x :: rest, acc, hacc => by
    rw [List.foldl_cons]
    apply cfFold_preserve cf k v hv rest
    by_cases hs : jsStartsWith x "customfield_" = true
    · cases hx : cf.lookup x with
      | none => simpa [cfStep, hs, hx] using hacc
      | some w =>
        by_cases hnn : w.isNull = true
        · simpa [cfStep, hs, hx, hnn] using hacc
        · simp only [cfStep, hs, if_true, hx, hnn, Bool.not_false]
          by_cases hxk : x = k
          · subst hxk
            rw [hx] at hv
            injection hv with hwv
            rw [hwv]
            exact objAssign_lookup_self acc x (normalizeCustomField v)
          · rw [objAssign_lookup_ne acc x k (normalizeCustomField w) (fun hh => hxk hh.symm)]
            exact hacc
    · simpa [cfStep, hs] using hacc

theorem cfFold_mem (cf : List (String × JSValue)) (k : String) (v : JSValue)
    (hs : jsStartsWith k "customfield_" = true)
    (hv : cf.lookup k = some v) (hnn : v.isNull = false) :
    ∀ (inc : List String) (acc : List (String × JSValue)), k ∈ inc →
      (inc.foldl (cfStep cf) acc).lookup k = some (normalizeCustomField v)
  | [], _, hmem => absurd hmem (List.not_mem_nil k)
  | x :: rest, acc, hmem => by
    rw [List.foldl_cons]
    by_cases hxk : x = k
    · subst hxk
      apply cfFold_preserve cf x v hv rest
      simp only [cfStep, hs, if_true, hv, hnn, Bool.not_false]
      exact objAssign_lookup_self acc x (normalizeCustomField v)
    · apply cfFold_mem cf k v hs hv hnn rest
      rcases List.mem_cons.mp hmem with h | h
      · exact absurd h.symm hxk
      · exact h

theorem customFieldsFor_lookup (inc : List String) (cf : List (String × JSValue))
    (k : String) (v : JSValue) (hk : k ∈ inc)
    (hs : jsStartsWith k "customfield_" = true)
    (hv : cf.lookup k = some v) (hnn : v.isNull = false) :
    (customFieldsFor inc cf).lookup k = some (normalizeCustomField v) :=
  cfFold_mem cf k v hs hv hnn inc [] hk

theorem convertIssueToXml_customfields (issue : JiraIssue) (config : ExportConfig)
    (k : String) (v : JSValue) (hk : k ∈ config.includeFields)
    (hs : jsStartsWith k "customfield_" = true)
    (hv : issue.fields.customFields.lookup k = some v) (hnn : v.isNull = false) :
    ∃ cfs, (convertIssueToXml issue config).lookup "customfields" = some (.obj cfs)
      ∧ cfs.lookup k = some (normalizeCustomField v) := by
  have hcf := customFieldsFor_lookup config.includeFields issue.fields.customFields k v
    hk hs hv hnn
  have hne : (customFieldsFor config.includeFields issue.fields.customFields).isEmpty
      = false := by
    cases hemp : (customFieldsFor config.includeFields issue.fields.customFields) with
    | nil => rw [hemp] at hcf; simp [List.lookup] at hcf
    | cons a l => simp
  have hincne : config.includeFields.isEmpty = false := by
    cases hie : config.includeFields with
    | nil => rw [hie] at hk; exact absurd hk (List.not_mem_nil k)
    | cons a l => simp
  refine ⟨customFieldsFor config.includeFields issue.fields.customFields, ?_, hcf⟩
  unfold convertIssueToXml
  rw [lookup_append_right]
  · unfold xmlCustom
    rw [hincne]
    dsimp only
    rw [hne]
    simp [List.lookup]
  · intro p hp heq
    rcases List.mem_append.mp hp with hp | hp
    rotate_left
    · rw [xmlLinks_key _ _ p hp] at heq; exact absurd heq (by decide)
    rcases List.mem_append.mp hp with hp | hp
    rotate_left
    · rw [xmlParent_key _ p hp] at heq; exact absurd heq (by decide)
    rcases List.mem_append.mp hp with hp | hp
    rotate_left
    · rw [xmlSubtasks_key _ _ p hp] at heq; exact absurd heq (by decide)
    rcases List.mem_append.mp hp with hp | hp
    rotate_left
    · rw [xmlWorklogs_key _ _ p hp] at heq; exact absurd heq (by decide)
    rcases List.mem_append.mp hp with hp | hp
    rotate_left
    · rw [xmlAttachments_key _ _ p hp] at heq; exact absurd heq (by decide)
    rcases List.mem_append.mp hp with hp | hp
    rotate_left
    · rw [xmlComments_key _ _ p hp] at heq; exact absurd heq (by decide)
    have hm := xmlBase_key_mem issue p hp
    rw [← heq] at hm
    exact absurd hm (by decide)

theorem jsonComments_nil (f : JiraIssueFields) (c : ExportConfig)
    (h : c.includeComments = false) : jsonComments f c = [] := by
  unfold jsonComments
  rw [h]

theorem jsonAttachments_nil (f : JiraIssueFields) (c : ExportConfig)
    (h : c.includeAttachments = false) : jsonAttachments f c = [] := by
  unfold jsonAttachments
  rw [h]

theorem jsonWorklogs_nil (f : JiraIssueFields) (c : ExportConfig)
    (h : c.includeWorklog = false) : jsonWorklogs f c = [] := by
  unfold jsonWorklogs
  rw [h]

theorem jsonSubtasks_nil (f : JiraIssueFields) (c : ExportConfig)
    (h : c.includeSubtasks = false) : jsonSubtasks f c = [] := by
  unfold jsonSubtasks
  rw [h]

theorem jsonLinks_nil (f : JiraIssueFields) (c : ExportConfig)
    (h : c.includeLinks = false) : jsonLinks f c = [] := by
  unfold jsonLinks
  rw [h]

theorem csvSubtasks_nil (f : JiraIssueFields) (c : ExportConfig)
    (h : c.includeSubtasks = false) : csvSubtasks f c = [] := by
  unfold csvSubtasks
  rw [h]

theorem csvComments_nil (f : JiraIssueFields) (c : ExportConfig)
    (h : c.includeComments = false) : csvComments f c = [] := by
  unfold csvComments
  rw [h]

theorem csvAttachments_nil (f : JiraIssueFields) (c : ExportConfig)
    (h : c.includeAttachments = false) : csvAttachments f c = [] := by
  unfold csvAttachments
  rw [h]

theorem csvWorklog_nil (f : JiraIssueFields) (c : ExportConfig)
    (h : c.includeWorklog = false) : csvWorklog f c = [] := by
  unfold csvWorklog
  rw [h]

theorem xmlComments_nil (f : JiraIssueFields) (c : ExportConfig)
    (h : c.includeComments = false) : xmlComments f c = [] := by
  unfold xmlComments
  rw [h]

theorem xmlAttachments_nil (f : JiraIssueFields) (c : ExportConfig)
    (h : c.includeAttachments = false) : xmlAttachments f c = [] := by
  unfold xmlAttachments
  rw [h]

theorem xmlWorklogs_nil (f : JiraIssueFields) (c : ExportConfig)
    (h : c.includeWorklog = false) : xmlWorklogs f c = [] := by
  unfold xmlWorklogs
  rw [h]

theorem xmlSubtasks_nil (f : JiraIssueFields) (c : ExportConfig)
    (h : c.includeSubtasks = false) : xmlSubtasks f c = [] := by
  unfold xmlSubtasks
  rw [h]

theorem xmlLinks_nil (f : JiraIssueFields) (c : ExportConfig)
    (h : c.includeLinks = false) : xmlLinks f c = [] := by
  unfold xmlLinks
  rw [h]

theorem xmlCustom_nil (f : JiraIssueFields) (c : ExportConfig)
    (h : c.includeFields = []) : xmlCustom f c = [] := by
  unfold xmlCustom
  rw [h]
  rfl

theorem json_lookup_base (issue : JiraIssue) (config : ExportConfig) (k : String)
    (v : JSValue) (h : List.lookup k (jsonBase issue) = some v) :
    (processIssueForJson issue config).lookup k = some v := by
  unfold processIssueForJson
  exact lookup_append_left (lookup_append_left (lookup_append_left (lookup_append_left
    (lookup_append_left (lookup_append_left h)))))

theorem csv_lookup_base (issue : JiraIssue) (config : ExportConfig) (k : String)
    (v : JSValue) (h : List.lookup k (csvBase issue) = some v) :
    (processIssueForCsv issue config).lookup k = some v := by
  unfold processIssueForCsv
  exact lookup_append_left (lookup_append_left (lookup_append_left (lookup_append_left
    (lookup_append_left h))))

theorem xml_lookup_base (issue : JiraIssue) (config : ExportConfig) (k : String)
    (v : JSValue) (h : List.lookup k (xmlBase issue) = some v) :
    (convertIssueToXml issue config).lookup k = some v := by
  unfold convertIssueToXml
  exact lookup_append_left (lookup_append_left (lookup_append_left (lookup_append_left
    (lookup_append_left (lookup_append_left (lookup_append_left h))))))

/-- The JSON record built by `processIssueForJson` never contains a
`resolution` key at all (the source projects only `resolutionDate`), so
an absent resolution is represented by omission. -/
theorem json_no_resolution (issue : JiraIssue) (config : ExportConfig) :
    (processIssueForJson issue config).lookup "resolution" = none := by
  apply lookup_eq_none_of
  intro p hp heq
  unfold processIssueForJson at hp
  rcases List.mem_append.mp hp with hp | hp
  case inr => rw [jsonParent_key _ p hp] at heq; exact absurd heq (by decide)
  rcases List.mem_append.mp hp with hp | hp
  case inr => rw [jsonLinks_key _ _ p hp] at heq; exact absurd heq (by decide)
  rcases List.mem_append.mp hp with hp | hp
  case inr => rw [jsonSubtasks_key _ _ p hp] at heq; exact absurd heq (by decide)
  rcases List.mem_append.mp hp with hp | hp
  case inr => rw [jsonWorklogs_key _ _ p hp] at heq; exact absurd heq (by decide)
  rcases List.mem_append.mp hp with hp | hp
  case inr => rw [jsonAttachments_key _ _ p hp] at heq; exact absurd heq (by decide)
  rcases List.mem_append.mp hp with hp | hp
  case inr => rw [jsonComments_key _ _ p hp] at heq; exact absurd heq (by decide)
  have hm := jsonBase_key_mem issue p hp
  rw [← heq] at hm
  exact absurd hm (by decide)

/-- The CSV row built by `processIssueForCsv` has no `Resolution` column
(only `Resolution Date`), so an absent resolution is represented by
omission, never by an empty string. -/
theorem csv_no_resolution_column (issue : JiraIssue) (config : ExportConfig) :
    (processIssueForCsv issue config).lookup "Resolution" = none := by
  apply lookup_eq_none_of
  intro p hp heq
  unfold processIssueForCsv at hp
  rcases List.mem_append.mp hp with hp | hp
  case inr =>
    rcases csvWorklog_key _ _ p hp with h | h | h <;>
      (rw [h] at heq; exact absurd heq (by decide))
  rcases List.mem_append.mp hp with hp | hp
  case inr => rw [csvAttachments_key _ _ p hp] at heq; exact absurd heq (by decide)
  rcases List.mem_append.mp hp with hp | hp
  case inr => rw [csvComments_key _ _ p hp] at heq; exact absurd heq (by decide)
  rcases List.mem_append.mp hp with hp | hp
  case inr =>
    rcases csvSubtasks_key _ _ p hp with h | h <;>
      (rw [h] at heq; exact absurd heq (by decide))
  rcases List.mem_append.mp hp with hp | hp
  case inr =>
    rcases csvParent_key _ p hp with h | h <;>
      (rw [h] at heq; exact absurd heq (by decide))
  have hm := csvBase_key_mem issue p hp
  rw [← heq] at hm
  exact absurd hm (by decide)

/-- Claim C7, amended: an absent resolution is projected as an explicit
absence by every format, as the original claim states — the JSON record
carries no `resolution` key at all, the XML item holds a suppressed
`undefined` node, and the CSV row has no resolution column; but for the
other optional relations (priority, assignee, reporter) only JSON
(explicit `null`) and XML (omitted `undefined` node) comply, while the
CSV row represents their absence as an empty string. -/
theorem absent_relations (issue : JiraIssue) (config : ExportConfig) :
    (issue.fields.priority = none →
      (processIssueForJson issue config).lookup "priority" = some .null
      ∧ (convertIssueToXml issue config).lookup "priority" = some .undefined
      ∧ (processIssueForCsv issue config).lookup "Priority" = some (.str ""))
    ∧ (issue.fields.assignee = none →
      (processIssueForJson issue config).lookup "assignee" = some .null
      ∧ (convertIssueToXml issue config).lookup "assignee" = some .undefined
      ∧ (processIssueForCsv issue config).lookup "Assignee" = some (.str ""))
    ∧ (issue.fields.reporter = none →
      (processIssueForJson issue config).lookup "reporter" = some .null
      ∧ (convertIssueToXml issue config).lookup "reporter" = some .undefined
      ∧ (processIssueForCsv issue config).lookup "Reporter" = some (.str ""))
    ∧ (issue.fields.resolution = none →
      (processIssueForJson issue config).lookup "resolution" = none
      ∧ (convertIssueToXml issue config).lookup "resolution" = some .undefined
      ∧ (processIssueForCsv issue config).lookup "Resolution" = none) := by
  refine ⟨fun h => ⟨?_, ?_, ?_⟩, fun h => ⟨?_, ?_, ?_⟩, fun h => ⟨?_, ?_, ?_⟩,
    fun h => ⟨?_, ?_, ?_⟩⟩
  · exact json_lookup_base _ _ _ _ (by simp [jsonBase, List.lookup, h])
  · exact xml_lookup_base _ _ _ _ (by simp [xmlBase, List.lookup, h])
  · exact csv_lookup_base _ _ _ _ (by simp [csvBase, List.lookup, h])
  · exact json_lookup_base _ _ _ _ (by simp [jsonBase, List.lookup, h])
  · exact xml_lookup_base _ _ _ _ (by simp [xmlBase, List.lookup, h])
  · exact csv_lookup_base _ _ _ _ (by simp [csvBase, List.lookup, h])
  · exact json_lookup_base _ _ _ _ (by simp [jsonBase, List.lookup, h])
  · exact xml_lookup_base _ _ _ _ (by simp [xmlBase, List.lookup, h])
  · exact csv_lookup_base _ _ _ _ (by simp [csvBase, List.lookup, h])
  · exact json_no_resolution issue config
  · exact xml_lookup_base _ _ _ _ (by simp [xmlBase, List.lookup, h])
  · exact csv_no_resolution_column issue config

theorem json_parent_lookup (issue : JiraIssue) (config : ExportConfig) (p : IssueRef)
    (hp : issue.fields.parent = some p) :
    (processIssueForJson issue config).lookup "parent"
      = some (.obj [("id", .str p.id), ("key", .str p.key),
          ("summary", .str p.fields.summary)]) := by
  unfold processIssueForJson
  rw [lookup_append_right]
  · simp [jsonParent, hp, List.lookup]
  · intro q hq heq
    rcases List.mem_append.mp hq with hq | hq
    rotate_left
    · rw [jsonLinks_key _ _ q hq] at heq; exact absurd heq (by decide)
    rcases List.mem_append.mp hq with hq | hq
    rotate_left
    · rw [jsonSubtasks_key _ _ q hq] at heq; exact absurd heq (by decide)
    rcases List.mem_append.mp hq with hq | hq
    rotate_left
    · rw [jsonWorklogs_key _ _ q hq] at heq; exact absurd heq (by decide)
    rcases List.mem_append.mp hq with hq | hq
    rotate_left
    · rw [jsonAttachments_key _ _ q hq] at heq; exact absurd heq (by decide)
    rcases List.mem_append.mp hq with hq | hq
    rotate_left
    · rw [jsonComments_key _ _ q hq] at heq; exact absurd heq (by decide)
    have hm := jsonBase_key_mem issue q hq
    rw [← heq] at hm
    exact absurd hm (by decide)

theorem xml_parent_lookup (issue : JiraIssue) (config : ExportConfig) (p : IssueRef)
    (hp : issue.fields.parent = some p) :
    (convertIssueToXml issue config).lookup "parent"
      = some (.obj [("@_id", .str p.id), ("@_key", .str p.key),
          ("#text", .str p.fields.summary)]) := by
  unfold convertIssueToXml
  apply lookup_append_left
  apply lookup_append_left
  rw [lookup_append_right]
  · simp [xmlParent, hp, List.lookup]
  · intro q hq heq
    rcases List.mem_append.mp hq with hq | hq
    rotate_left
    · rw [xmlSubtasks_key _ _ q hq] at heq; exact absurd heq (by decide)
    rcases List.mem_append.mp hq with hq | hq
    rotate_left
    · rw [xmlWorklogs_key _ _ q hq] at heq; exact absurd heq (by decide)
    rcases List.mem_append.mp hq with hq | hq
    rotate_left
    · rw [xmlAttachments_key _ _ q hq] at heq; exact absurd heq (by decide)
    rcases List.mem_append.mp hq with hq | hq
    rotate_left
    · rw [xmlComments_key _ _ q hq] at heq; exact absurd heq (by decide)
    have hm := xmlBase_key_mem issue q hq
    rw [← heq] at hm
    exact absurd hm (by decide)

theorem csv_parent_lookup (issue : JiraIssue) (config : ExportConfig) (p : IssueRef)
    (hp : issue.fields.parent = some p) :
    (processIssueForCsv issue config).lookup "Parent Key" = some (.str p.key)
    ∧ (processIssueForCsv issue config).lookup "Parent Summary"
        = some (.str p.fields.summary) := by
  unfold processIssueForCsv
  constructor <;>
  · apply lookup_append_left
    apply lookup_append_left
    apply lookup_append_left
    apply lookup_append_left
    rw [lookup_append_right]
    · simp [csvParent, hp, List.lookup]
    · intro q hq heq
      have hm := csvBase_key_mem issue q hq
      rw [← heq] at hm
      exact absurd hm (by decide)

theorem json_flags_off_lookup (issue : JiraIssue) (config : ExportConfig)
    (hf : flagsOff config) (key : String) (h1 : key ∉ jsonBaseKeys) (h2 : key ≠ "parent") :
    (processIssueForJson issue config).lookup key = none := by
  obtain ⟨hc, ha, hw, hs, hl, -⟩ := hf
  have hrec : processIssueForJson issue config
      = jsonBase issue ++ jsonParent issue.fields := by
    unfold processIssueForJson
    rw [jsonComments_nil _ _ hc, jsonAttachments_nil _ _ ha, jsonWorklogs_nil _ _ hw,
      jsonSubtasks_nil _ _ hs, jsonLinks_nil _ _ hl]
    simp
  rw [hrec]
  apply lookup_eq_none_of
  intro p hp heq
  rcases List.mem_append.mp hp with hp | hp
  · exact h1 (heq ▸ jsonBase_key_mem issue p hp)
  · exact h2 (heq.trans (jsonParent_key _ p hp))

theorem xml_flags_off_lookup (issue : JiraIssue) (config : ExportConfig)
    (hf : flagsOff config) (key : String) (h1 : key ∉ xmlBaseKeys) (h2 : key ≠ "parent") :
    (convertIssueToXml issue config).lookup key = none := by
  obtain ⟨hc, ha, hw, hs, hl, hif⟩ := hf
  have hrec : convertIssueToXml issue config
      = xmlBase issue ++ xmlParent issue.fields := by
    unfold convertIssueToXml
    rw [xmlComments_nil _ _ hc, xmlAttachments_nil _ _ ha, xmlWorklogs_nil _ _ hw,
      xmlSubtasks_nil _ _ hs, xmlLinks_nil _ _ hl, xmlCustom_nil _ _ hif]
    simp
  rw [hrec]
  apply lookup_eq_none_of
  intro p hp heq
  rcases List.mem_append.mp hp with hp | hp
  · exact h1 (heq ▸ xmlBase_key_mem issue p hp)
  · exact h2 (heq.trans (xmlParent_key _ p hp))

theorem csv_flags_off_lookup (issue : JiraIssue) (config : ExportConfig)
    (hf : flagsOff config) (key : String) (h1 : key ∉ csvBaseKeys)
    (h2 : key ≠ "Parent Key") (h3 : key ≠ "Parent Summary") :
    (processIssueForCsv issue config).lookup key = none := by
  obtain ⟨hc, ha, hw, hs, -, -⟩ := hf
  have hrec : processIssueForCsv issue config
      = csvBase issue ++ csvParent issue.fields := by
    unfold processIssueForCsv
    rw [csvSubtasks_nil _ _ hs, csvComments_nil _ _ hc, csvAttachments_nil _ _ ha,
      csvWorklog_nil _ _ hw]
    simp
  rw [hrec]
  apply lookup_eq_none_of
  intro p hp heq
  rcases List.mem_append.mp hp with hp | hp
  · exact h1 (heq ▸ csvBase_key_mem issue p hp)
  · rcases csvParent_key _ p hp with h | h
    · exact h2 (heq.trans h)
    · exact h3 (heq.trans h)

/-- Claim C1, counterexample: with `format = "bogus"` and a callback
installed, the call does fail with the unsupported-format error, but a
`processing`-stage "Starting ..." progress event is emitted through the
callback before the failure — the claim's "zero progress events are
emitted before the failure" is false. -/
theorem unsupported_format_still_emits_start_event :
    (exportRun [] bogusConfig true ck0).result = .error "Unsupported export format: bogus"
    ∧ (exportRun [] bogusConfig true ck0).events.head? = some (startEvent 0 "bogus")
    ∧ (startEvent 0 "bogus").stage = Stage.processing
    ∧ (exportRun [] bogusConfig true ck0).events.length = 2 :=
  ⟨rfl, rfl, rfl, rfl⟩

theorem unsupported_format_fails_fast_witness :
    (bogusConfig.format ≠ "xml" ∧ bogusConfig.format ≠ "json" ∧ bogusConfig.format ≠ "csv")
    ∧ (exportRun [] bogusConfig true ck0).result
        = .error ("Unsupported export format: " ++ bogusConfig.format)
    ∧ (exportRun [] bogusConfig true ck0).events
        = [startEvent 0 bogusConfig.format,
           errorEvent 0 ("Unsupported export format: " ++ bogusConfig.format)] := by
  have h := unsupported_format_fails_fast [] bogusConfig true ck0
    (by decide) (by decide) (by decide)
  exact ⟨⟨by decide, by decide, by decide⟩, h.1, by simpa using h.2.2⟩

theorem export_failure_single_error_event_witness :
    (baseConfig.format = "xml" ∨ baseConfig.format = "json" ∨ baseConfig.format = "csv")
    ∧ (dispatch boomIssues baseConfig true ck0).2 = .error "boom"
    ∧ (exportRun boomIssues baseConfig true ck0).result = .error "boom"
    ∧ (exportRun boomIssues baseConfig true ck0).saved = none
    ∧ (exportRun boomIssues baseConfig true ck0).events.countP
        (fun ev => ev.stage == Stage.error) = 1 := by
  have h := export_failure_single_error_event boomIssues baseConfig ck0 "boom"
    (Or.inr (Or.inl rfl)) rfl
  exact ⟨Or.inr (Or.inl rfl), rfl, h.1, h.2.1, h.2.2.2.1⟩

/-- Claim C3, counterexample: for a concrete issue carrying
`customfield_100 = {value: "x"}` in the config's include-list, the XML
item projects the normalized value, but the JSON record and the CSV row
contain no custom-field key at all — the normalization rule is not
shared by all three formats. -/
theorem custom_field_projection_not_shared :
    (convertIssueToXml sampleIssue cfConfig).lookup "customfields"
        = some (.obj [("customfield_100", .str "x")])
    ∧ (processIssueForJson sampleIssue cfConfig).lookup "customfield_100" = none
    ∧ ((processIssueForJson sampleIssue cfConfig).map Prod.fst).all
        (fun k => !(jsStartsWith k "customfield_")) = true
    ∧ (processIssueForCsv sampleIssue cfConfig).lookup "customfield_100" = none
    ∧ ((processIssueForCsv sampleIssue cfConfig).map Prod.fst).all
        (fun k => !(jsStartsWith k "customfield_")) = true :=
  ⟨rfl, rfl, rfl, rfl, rfl⟩

/-- Claim C3, amended: only the XML exporter projects custom fields.
For every custom field key in the include-list, present non-null on the
issue, the XML item's `customfields` group carries
`normalizeCustomField` of its value (arrays mapped element-wise with
the value/name/displayName fallback, scalars unchanged), while the JSON
and CSV projections contain no `customfield_`-prefixed key for any
issue and config. -/
theorem custom_fields_xml_only (issue : JiraIssue) (config : ExportConfig) (k : String)
    (v : JSValue) (hk : k ∈ config.includeFields)
    (hs : jsStartsWith k "customfield_" = true)
    (hv : issue.fields.customFields.lookup k = some v) (hnn : v.isNull = false) :
    (∃ cfs, (convertIssueToXml issue config).lookup "customfields" = some (.obj cfs)
      ∧ cfs.lookup k = some (normalizeCustomField v))
    ∧ (∀ key, jsStartsWith key "customfield_" = true →
        (processIssueForJson issue config).lookup key = none)
    ∧ (∀ key, jsStartsWith key "customfield_" = true →
        (processIssueForCsv issue config).lookup key = none) :=
  ⟨convertIssueToXml_customfields issue config k v hk hs hv hnn,
   fun key h => json_no_customfield issue config key h,
   fun key h => csv_no_customfield issue config key h⟩

theorem custom_fields_xml_only_witness :
    ("customfield_100" ∈ cfConfig.includeFields
      ∧ jsStartsWith "customfield_100" "customfield_" = true
      ∧ sampleIssue.fields.customFields.lookup "customfield_100"
          = some (.obj [("value", .str "x")])
      ∧ (JSValue.obj [("value", .str "x")]).isNull = false)
    ∧ (processIssueForJson sampleIssue cfConfig).lookup "customfield_100" = none := by
  have h := custom_fields_xml_only sampleIssue cfConfig "customfield_100"
    (.obj [("value", .str "x")]) (by decide) (by decide) rfl rfl
  exact ⟨⟨by decide, by decide, rfl, rfl⟩, h.2.1 "customfield_100" (by decide)⟩

/-- Claim C4, counterexample: a run that fails mid-loop (a malformed
issue at position 15 of 23) ends with an `error`-stage event whose
percentage is 0 — the final event of this run is neither `complete` nor
at percentage 100, so the claim quantified over every run is false. -/
theorem failing_run_final_event_not_complete :
    (exportRun failIssues csvConfig true ck0).events.length = 4
    ∧ (exportRun failIssues csvConfig true ck0).events.getLast?
        = some (errorEvent 23 "bad")
    ∧ (errorEvent 23 "bad").stage = Stage.error
    ∧ (errorEvent 23 "bad").stage ≠ Stage.complete
    ∧ (errorEvent 23 "bad").percentage = 0
    ∧ ((0 : Int) ≠ 100) :=
  ⟨rfl, rfl, rfl, by decide, rfl, by decide⟩

theorem progress_monotone_on_success_witness :
    (exportRun (okIssues 12) csvConfig true ck0).result = .ok ()
    ∧ (exportRun (okIssues 12) csvConfig true ck0).events.Chain' MonoR
    ∧ (∃ e, (exportRun (okIssues 12) csvConfig true ck0).events.getLast? = some e
        ∧ e.percentage = 100 ∧ e.stage = Stage.complete) := by
  have h := progress_monotone_on_success (okIssues 12) csvConfig ck0 rfl
  exact ⟨rfl, h.1, h.2.2⟩

/-- Claim C5: during the per-issue loop (shared verbatim by the three
formats), a `processing` event is emitted exactly when the processed
count is a multiple of 10 — every emitted event sits at such a count,
and every multiple of 10 within range gets its event — and each such
event carries `estimatedTimeRemaining =
Math.round((elapsed / count * total - elapsed) / 1000)` whole
seconds. -/
theorem loop_progress_cadence_and_eta {α : Type} (p : RuntimeIssue → Except String α)
    (n : Nat) (el : Nat → Rat) (issues : List RuntimeIssue)
    (hok : (runLoop p n true el issues 0).2.toOption.isSome = true) :
    (∀ e ∈ (runLoop p n true el issues 0).1,
      e.stage = Stage.processing ∧ e.current % 10 = 0 ∧ 0 < e.current
      ∧ e.current ≤ issues.length ∧ e.percentage = pctOf n e.current
      ∧ e.estimatedTimeRemaining
          = some (jsRound ((el e.current / (e.current : Rat) * (n : Rat) - el e.current)
              / 1000)))
    ∧ (∀ j, 0 < j → j ≤ issues.length → j % 10 = 0 →
        loopEvent n el j ∈ (runLoop p n true el issues 0).1) := by
  constructor
  · intro e he
    obtain ⟨j, rfl, hj1, hj2, hj3⟩ := runLoop_mem p n true el issues 0 e he
    exact ⟨rfl, hj3, hj1, by simpa using hj2, rfl, rfl⟩
  · intro j h1 h2 h3
    obtain ⟨rs, hrs⟩ : ∃ rs, (runLoop p n true el issues 0).2 = .ok rs := by
      rcases hres : (runLoop p n true el issues 0).2 with e | rs
      · rw [hres] at hok
        simp [Except.toOption] at hok
      · exact ⟨rs, rfl⟩
    exact runLoop_ok_mem p n el issues 0 rs j hrs h1 (by simpa using h2) h3

theorem loop_progress_cadence_and_eta_witness :
    ((runLoop (processRuntimeJson baseConfig) 12 true ck0.elapsedAt
        (okIssues 12) 0).2.toOption.isSome = true)
    ∧ loopEvent 12 ck0.elapsedAt 10
        ∈ (runLoop (processRuntimeJson baseConfig) 12 true ck0.elapsedAt (okIssues 12) 0).1 := by
  have h := loop_progress_cadence_and_eta (processRuntimeJson baseConfig) 12 ck0.elapsedAt
    (okIssues 12) rfl
  exact ⟨rfl, h.2 10 (by decide) (by decide) (by decide)⟩

/-- Claim C6, counterexample: for `issues = []` and CSV format the
export succeeds, but the saved artifact's content is the empty string —
zero characters, hence no header row naming any columns.
`Papa.unparse` derives columns from the first row object and there is
none. -/
theorem empty_csv_export_has_no_header :
    (exportRun [] csvConfig true ck0).result = .ok ()
    ∧ (exportRun [] csvConfig true ck0).saved
        = some { content := "", filename := "jira-export-2026-01-01.csv",
                 mimeType := "text/csv;charset=utf-8" }
    ∧ ((exportRun [] csvConfig true ck0).saved.map (fun a => a.content.length)) = some 0 :=
  ⟨rfl, rfl, rfl⟩

/-- Claim C6, amended: for `issues = []` and `format = "csv"` the
export succeeds with no error, and the persisted CSV artifact is empty:
no header row and zero data rows. -/
theorem empty_csv_export_empty_output (config : ExportConfig) (op : Bool) (ck : Clock)
    (h : config.format = "csv") :
    (exportRun [] config op ck).result = .ok ()
    ∧ (exportRun [] config op ck).saved
        = some { content := "", filename := "jira-export-" ++ ck.dateStr ++ ".csv",
                 mimeType := "text/csv;charset=utf-8" } := by
  unfold exportRun dispatch
  rw [h]
  rw [if_neg (by decide), if_neg (by decide), if_pos rfl]
  unfold exportCsvRun
  simp [runLoop, papaUnparse]

theorem empty_csv_export_empty_output_witness :
    csvConfig.format = "csv"
    ∧ (exportRun [] csvConfig false ck0).result = .ok ()
    ∧ (exportRun [] csvConfig false ck0).saved
        = some { content := "", filename := "jira-export-2026-01-01.csv",
                 mimeType := "text/csv;charset=utf-8" } := by
  have h := empty_csv_export_empty_output csvConfig false ck0 rfl
  exact ⟨rfl, h.1, h.2⟩

/-- Claim C7, counterexample: on an issue with no priority, assignee or
reporter, the CSV row projects those columns as the empty string — not
as an explicit absence — so the claim fails for the CSV format. -/
theorem csv_absent_priority_empty_string :
    sampleIssue.fields.priority = none
    ∧ sampleIssue.fields.assignee = none
    ∧ sampleIssue.fields.reporter = none
    ∧ (processIssueForCsv sampleIssue baseConfig).lookup "Priority" = some (.str "")
    ∧ (processIssueForCsv sampleIssue baseConfig).lookup "Assignee" = some (.str "")
    ∧ (processIssueForCsv sampleIssue baseConfig).lookup "Reporter" = some (.str "") :=
  ⟨rfl, rfl, rfl, rfl, rfl, rfl⟩

theorem absent_relations_witness :
    sampleIssue.fields.priority = none
    ∧ (processIssueForJson sampleIssue baseConfig).lookup "priority" = some JSValue.null
    ∧ (convertIssueToXml sampleIssue baseConfig).lookup "priority" = some JSValue.undefined
    ∧ sampleIssue.fields.resolution = none
    ∧ (processIssueForJson sampleIssue baseConfig).lookup "resolution" = none
    ∧ (convertIssueToXml sampleIssue baseConfig).lookup "resolution"
        = some JSValue.undefined
    ∧ (processIssueForCsv sampleIssue baseConfig).lookup "Resolution" = none := by
  have h := absent_relations sampleIssue baseConfig
  exact ⟨rfl, (h.1 rfl).1, (h.1 rfl).2.1, rfl, (h.2.2.2 rfl).1, (h.2.2.2 rfl).2.1,
    (h.2.2.2 rfl).2.2⟩

/-- Claim C8: an issue's parent reference is projected into every
format — key and summary in JSON, XML and CSV — regardless of the
inclusion flags; and with every inclusion flag off and an empty
custom-field include-list, no key outside the fixed base set other than
the parent appears in any format's record. -/
theorem parent_always_included (issue : JiraIssue) (config : ExportConfig) (p : IssueRef)
    (hp : issue.fields.parent = some p) :
    (processIssueForJson issue config).lookup "parent"
        = some (.obj [("id", .str p.id), ("key", .str p.key),
            ("summary", .str p.fields.summary)])
    ∧ (convertIssueToXml issue config).lookup "parent"
        = some (.obj [("@_id", .str p.id), ("@_key", .str p.key),
            ("#text", .str p.fields.summary)])
    ∧ (processIssueForCsv issue config).lookup "Parent Key" = some (.str p.key)
    ∧ (processIssueForCsv issue config).lookup "Parent Summary"
        = some (.str p.fields.summary)
    ∧ (flagsOff config →
        (∀ key, key ∉ jsonBaseKeys → key ≠ "parent" →
          (processIssueForJson issue config).lookup key = none)
        ∧ (∀ key, key ∉ xmlBaseKeys → key ≠ "parent" →
          (convertIssueToXml issue config).lookup key = none)
        ∧ (∀ key, key ∉ csvBaseKeys → key ≠ "Parent Key" → key ≠ "Parent Summary" →
          (processIssueForCsv issue config).lookup key = none)) :=
  ⟨json_parent_lookup issue config p hp,
   xml_parent_lookup issue config p hp,
   (csv_parent_lookup issue config p hp).1,
   (csv_parent_lookup issue config p hp).2,
   fun hf =>
    ⟨fun key h1 h2 => json_flags_off_lookup issue config hf key h1 h2,
     fun key h1 h2 => xml_flags_off_lookup issue config hf key h1 h2,
     fun key h1 h2 h3 => csv_flags_off_lookup issue config hf key h1 h2 h3⟩⟩

theorem parent_always_included_witness :
    sampleIssue.fields.parent = some sampleParentRef
    ∧ (processIssueForJson sampleIssue baseConfig).lookup "parent"
        = some (.obj [("id", .str "10"), ("key", .str "PROJ-1"),
            ("summary", .str "Parent")])
    ∧ (processIssueForCsv sampleIssue baseConfig).lookup "Parent Key"
        = some (.str "PROJ-1")
    ∧ (processIssueForJson sampleIssue baseConfig).lookup "comments" = none := by
  have h := parent_always_included sampleIssue baseConfig sampleParentRef rfl
  refine ⟨rfl, h.1, h.2.2.1, ?_⟩
  exact (h.2.2.2.2 ⟨rfl, rfl, rfl, rfl, rfl, rfl⟩).1 "comments" (by decide) (by decide)

theorem error_event_resets_counters_witness :
    (exportRun failIssues baseConfig true ck0).result = .error "bad"
    ∧ (exportRun failIssues baseConfig true ck0).events.getLast?
        = some (errorEvent 23 "bad")
    ∧ 2 ≤ (exportRun failIssues baseConfig true ck0).events.length
    ∧ (errorEvent 23 "bad").current = 0
    ∧ (errorEvent 23 "bad").percentage = 0 := by
  have h := error_event_resets_counters failIssues baseConfig ck0 "bad" rfl
  exact ⟨rfl, h.2.1, h.1, h.2.2.1, h.2.2.2.1⟩

/-- Claim C10: `normalizeCustomField` reduces an array element by
truthiness (`item.value || item.name || item.displayName ||
JSON.stringify(item)`) but a top-level object by definedness
(`!== undefined`); consequently `{value: ""}` normalizes to `""` at top
level yet falls through to `name`/`displayName`/the JSON-stringified
form as an array element. -/
theorem normalize_truthiness_vs_definedness :
    normalizeCustomField (.obj [("value", .str "")]) = .str ""
    ∧ normalizeCustomField (.obj [("value", .str ""), ("name", .str "N")]) = .str ""
    ∧ normalizeCustomField (.arr [.obj [("value", .str ""), ("name", .str "N")]])
        = .arr [.str "N"]
    ∧ normalizeCustomField (.arr [.obj [("value", .str "")]])
        = .arr [.str (jsonStringify (.obj [("value", .str "")]))]
    ∧ jsonStringify (.obj [("value", .str "")]) = "\x7b\"value\":\"\"\x7d"
    ∧ normalizeCustomField (.arr [.obj [("value", .str "")]])
        ≠ .arr [normalizeCustomField (.obj [("value", .str "")])] := by
  have h5 : jsonStringify (.obj [("value", .str "")]) = "\x7b\"value\":\"\"\x7d" := by
    simp only [jsonStringify, jsonStringifyFields, JSValue.isUndefined]
    rfl
  refine ⟨rfl, rfl, rfl, rfl, h5, ?_⟩
  intro h
  have h2 : JSValue.arr [.str (jsonStringify (.obj [("value", .str "")]))]
      = JSValue.arr [.str ""] := h
  rw [h5] at h2
  injection h2 with h3
  injection h3 with h4
  injection h4 with h6
  exact absurd h6 (by decide)
